import Mathlib

/-!
# The exported binding `xslt_xslt_transform` and the transform behind it

Part 1 embeds the generated binding of `src/RcppExports.cpp`.  The binding is
a straight-line C++ function wrapped in `BEGIN_RCPP` / `END_RCPP`; every
statement of its body becomes one step of a small exception-and-state monad
whose state carries the host session and a trace of the steps performed.
What the binding only uses but does not define is taken as data of a `Host`:
the conversions `Rcpp::as<std::string>`, `Rcpp::as<bool>`, `Rcpp::wrap`, the
two calls made by `Rcpp::RNGScope`, and the native `xslt_transform` declared
on line 9.

Part 2 models the native `xslt_transform` from the specification: the data
model, template selection, the evaluation of output instructions, the stages
of the parser that the three flags govern, and the reader, stylesheet compiler
and serializer on text.

The theorems follow the definitions: first those about the binding, then
those about the modelled engine.
-/

namespace Xslt

/-! ## Part 1: the binding -/

/-- A C++ exception in flight: either derived from `std::exception`, with the
text returned by `what()`, or any other thrown object. -/
inductive CppException where
  | stdException (what : String)
  | unknown
  deriving DecidableEq, Repr

/-- One observable step of a call of the binding, in program order. -/
inductive Event where
  /-- the constructor of `Rcpp::RNGScope __rngScope` (line 13) -/
  | rngScopeOpen
  /-- the conversion of the k-th argument succeeded (lines 14 to 18) -/
  | converted (k : Nat)
  /-- the native `xslt_transform` is entered with these five values (line 19) -/
  | nativeCall (xslt_doc xml_doc : String)
      (process_includes load_external_subsets validate_xml : Bool)
  /-- the assignment `__result = Rcpp::wrap(...)` (line 19) -/
  | resultAssigned
  /-- the statement `return __result;` (line 20) -/
  | returnResult
  /-- the destructor of `__rngScope`, on either way out of the block -/
  | rngScopeClose
  /-- the handler of `END_RCPP` raised a host error -/
  | errorRaised
  deriving DecidableEq, Repr

/-- What the binding leaves to its surroundings.  `SEXP` is the type of host
values, `World` the state of the host session. -/
structure Host (SEXP World : Type) where
  /-- the conversion `Rcpp::as<std::string>` behind `input_parameter< std::string >` -/
  asString : SEXP → Except CppException String
  /-- the conversion `Rcpp::as<bool>` behind `input_parameter< bool >` -/
  asBool : SEXP → Except CppException Bool
  /-- the conversion `Rcpp::wrap` of a `std::string` -/
  wrap : String → SEXP
  /-- the call `GetRNGstate()` made by the constructor of `Rcpp::RNGScope` -/
  getRNGstate : World → World
  /-- the call `PutRNGstate()` made by the destructor of `Rcpp::RNGScope` -/
  putRNGstate : World → World
  /-- the native function declared on line 9; it may throw, and it may read
  and change the session -/
  xslt_transform : String → String → Bool → Bool → Bool → World →
    Except CppException String × World

/-- The state threaded through one call: the host session and the trace. -/
structure CallState (World : Type) where
  world : World
  trace : List Event

/-- A C++ computation: from a state it either yields a value or throws, and
leaves a state behind in both cases. -/
def Cpp (World α : Type) : Type :=
  CallState World → Except CppException α × CallState World

/-- A computation that yields `a` and does nothing else. -/
def Cpp.pure {World α : Type} (a : α) : Cpp World α :=
  fun s => (Except.ok a, s)

/-- Sequencing: a throw in the first computation skips the second. -/
def Cpp.bind {World α β : Type} (m : Cpp World α) (f : α → Cpp World β) : Cpp World β :=
  fun s =>
    match m s with
    | (Except.ok a, s1) => f a s1
    | (Except.error e, s1) => (Except.error e, s1)

instance {World : Type} : Monad (Cpp World) where
  pure := Cpp.pure
  bind := Cpp.bind

/-- Append one event to the trace. -/
def Cpp.emit {World : Type} (e : Event) : Cpp World Unit :=
  fun s => (Except.ok (), { world := s.world, trace := s.trace ++ [e] })

/-- Modelled from the spec: `Rcpp::traits::input_parameter< T >::type` is a
type of Rcpp and not in the repository; its conversion of the host argument is
taken to happen where the parameter is declared (lines 14 to 18), and in any
case before the callee of line 19 is entered.  `r` is the conversion result of
the k-th host argument: an exception is thrown, a success is recorded. -/
def Cpp.inputParameter {World α : Type} (k : Nat) (r : Except CppException α) : Cpp World α :=
  fun s =>
    match r with
    | Except.ok a => (Except.ok a, { world := s.world, trace := s.trace ++ [Event.converted k] })
    | Except.error e => (Except.error e, s)

/-- The call of the native function: the only place where it is invoked.  The
invocation is recorded, with the values passed, before the callee runs. -/
def Cpp.callNative {SEXP World : Type} (h : Host SEXP World)
    (xslt_doc xml_doc : String)
    (process_includes load_external_subsets validate_xml : Bool) : Cpp World String :=
  fun s =>
    let r := h.xslt_transform xslt_doc xml_doc process_includes load_external_subsets
      validate_xml s.world
    (r.1, { world := r.2,
            trace := s.trace ++ [Event.nativeCall xslt_doc xml_doc process_includes
              load_external_subsets validate_xml] })

/-- The lifetime of `Rcpp::RNGScope __rngScope`: the constructor runs before
the rest of the block, the destructor after it, whether the block returned or
threw. -/
def Cpp.withRNGScope {SEXP World α : Type} (h : Host SEXP World) (block : Cpp World α) :
    Cpp World α :=
  fun s =>
    let s1 : CallState World :=
      { world := h.getRNGstate s.world, trace := s.trace ++ [Event.rngScopeOpen] }
    let r := block s1
    (r.1, { world := h.putRNGstate r.2.world, trace := r.2.trace ++ [Event.rngScopeClose] })

/-- Lines 12 to 20, the block between `BEGIN_RCPP` and `END_RCPP`. -/
def xslt_xslt_transform_block {SEXP World : Type} (h : Host SEXP World)
    (xslt_docSEXP xml_docSEXP process_includesSEXP load_external_subsetsSEXP
      validate_xmlSEXP : SEXP) : Cpp World SEXP :=
  Cpp.withRNGScope h (do
    let xslt_doc ← Cpp.inputParameter 1 (h.asString xslt_docSEXP)
    let xml_doc ← Cpp.inputParameter 2 (h.asString xml_docSEXP)
    let process_includes ← Cpp.inputParameter 3 (h.asBool process_includesSEXP)
    let load_external_subsets ← Cpp.inputParameter 4 (h.asBool load_external_subsetsSEXP)
    let validate_xml ← Cpp.inputParameter 5 (h.asBool validate_xmlSEXP)
    let r ← Cpp.callNative h xslt_doc xml_doc process_includes load_external_subsets
      validate_xml
    let result := h.wrap r
    Cpp.emit Event.resultAssigned
    Cpp.emit Event.returnResult
    Cpp.pure result)

/-- How a call of the binding ends for the host. -/
inductive Outcome (SEXP : Type) where
  /-- the binding returned this host value -/
  | returned (value : SEXP)
  /-- the binding raised a host error with this message; nothing is returned -/
  | hostError (message : String)
  deriving DecidableEq, Repr

/-- Everything observable of one call of the binding. -/
structure Call (SEXP World : Type) where
  outcome : Outcome SEXP
  world : World
  trace : List Event

/-- Modelled from the spec: the handler of `END_RCPP` comes from Rcpp and is
not in the repository.  The text of the host error raised for a caught
exception: a failure carries its human-readable message, the `what()` text of
a `std::exception`; a thrown object of any other type has no text of its own
and is reported with a fixed one. -/
def forwardedMessage : CppException → String
  | CppException.stdException m => m
  | CppException.unknown => "c++ exception (unknown reason)"

/-- Modelled from the spec: the macros `BEGIN_RCPP` and `END_RCPP` come from
Rcpp and are not in the repository.  They enclose the block in a `try`; a
caught exception is forwarded to the host as an error carrying its message; a
block that returned passes its value through.  This is the single top-level
failure carrying a human-readable message of the error handling design. -/
def END_RCPP {SEXP World : Type} (r : Except CppException SEXP × CallState World) :
    Call SEXP World :=
  match r.1 with
  | Except.ok v => { outcome := Outcome.returned v, world := r.2.world, trace := r.2.trace }
  | Except.error e =>
      { outcome := Outcome.hostError (forwardedMessage e), world := r.2.world,
        trace := r.2.trace ++ [Event.errorRaised] }

/-- The exported binding (lines 10 to 22), called in the session `w`. -/
def xslt_xslt_transform {SEXP World : Type} (h : Host SEXP World)
    (xslt_docSEXP xml_docSEXP process_includesSEXP load_external_subsetsSEXP
      validate_xmlSEXP : SEXP) (w : World) : Call SEXP World :=
  END_RCPP (xslt_xslt_transform_block h xslt_docSEXP xml_docSEXP process_includesSEXP
    load_external_subsetsSEXP validate_xmlSEXP { world := w, trace := [] })

/-- The number of times the native function was entered during a call. -/
def nativeCalls : List Event → Nat
  | [] => 0
  | Event.nativeCall _ _ _ _ _ :: t => nativeCalls t + 1
  | _ :: t => nativeCalls t


/-- The host `h` with a counter of applications joined to its session: every
application of the native function advances the counter by one, and nothing
else in the host touches it.  Conversions, wrapping, the calls of the scope of
the random number generator and the native function itself act as in `h`. -/
def countingHost {SEXP World : Type} (h : Host SEXP World) : Host SEXP (World × Nat) where
  asString := h.asString
  asBool := h.asBool
  wrap := h.wrap
  getRNGstate := fun w => (h.getRNGstate w.1, w.2)
  putRNGstate := fun w => (h.putRNGstate w.1, w.2)
  xslt_transform := fun s x a b c w =>
    let r := h.xslt_transform s x a b c w.1
    (r.1, (r.2, w.2 + 1))

/-! ### A concrete host, for evaluating the binding -/

/-- Host values of a small concrete session: the null value, character
vectors and logical vectors. -/
inductive RValue where
  | null
  | character (xs : List String)
  | logical (xs : List Bool)
  deriving DecidableEq, Repr

/-- A concrete host.  A character vector of length one converts to a string, a
logical vector of length one to a boolean, everything else throws; the session
is a counter that the native function advances; the native function throws on
an empty document and otherwise answers with its five arguments spelled out. -/
def sampleHost : Host RValue Nat where
  asString := fun v =>
    match v with
    | RValue.character [s] => Except.ok s
    | _ => Except.error (CppException.stdException "Expecting a single string value")
  asBool := fun v =>
    match v with
    | RValue.logical [b] => Except.ok b
    | _ => Except.error (CppException.stdException "Expecting a single value")
  wrap := fun s => RValue.character [s]
  getRNGstate := fun w => w
  putRNGstate := fun w => w
  xslt_transform := fun s x a b c w =>
    if x = "" then (Except.error (CppException.stdException "Document is empty"), w + 1)
    else (Except.ok (s ++ "|" ++ x ++ "|" ++ toString a ++ toString b ++ toString c), w + 1)

/-! ## Part 2: the native function, modelled from the specification

The native `xslt_transform` is declared on line 9 and defined outside the
source at hand.  What follows is the transformation engine of the
specification (sections 3, 4.1 and 6).  The parser, the stylesheet compiler
and the serializer enter the engine as collaborators, by their interface;
further down the same interface is filled by a reader, a compiler and a
serializer that work on text. -/

/-- Modelled from the spec: the error taxonomy of section 7; the engine that
raises these errors is not in the repository. -/
inductive EngineError where
  | parseError (message : String)
  | validationError (message : String)
  | compileError (message : String)
  | undefinedReference (identifier : String)
  | resourceExhaustion
  | serializationError (message : String)
  | resourceFetchError (resource : String)
  deriving DecidableEq, Repr

/-- Modelled from the spec: the Node of the data model (section 3), missing
from the repository with the engine.  A node owns its children; the parent
back-reference is the position of the node in the tree of its root, which the
transformation context carries. -/
inductive Node where
  | document (children : List Node)
  | element (name : String) (attributes : List (String × String)) (children : List Node)
  | text (content : String)
  | comment (content : String)
  | processingInstruction (target content : String)
  | attribute (name value : String)
  deriving Repr

mutual
/-- Modelled from the spec: the string value that the built-in templates copy
(section 4.1): the content of a text node, the value of an attribute, and for
an element or a document the text of its descendants in document order. -/
def stringValue : Node → String
  | Node.document cs => stringValueList cs
  | Node.element _ _ cs => stringValueList cs
  | Node.text s => s
  | Node.comment s => s
  | Node.processingInstruction _ s => s
  | Node.attribute _ v => v
/-- Modelled from the spec: the string value of a sequence of children;
comments and processing instructions among them contribute nothing. -/
def stringValueList : List Node → String
  | [] => ""
  | Node.comment _ :: rest => stringValueList rest
  | Node.processingInstruction _ _ :: rest => stringValueList rest
  | n :: rest => stringValue n ++ stringValueList rest
end

/-- Modelled from the spec: the ordered sequence of child nodes of a node
(section 3); only elements and the document root have any. -/
def Node.childNodes : Node → List Node
  | Node.document cs => cs
  | Node.element _ _ cs => cs
  | _ => []

mutual
/-- Modelled from the spec: the descendants of a node of the data model, in
document order, the node itself excluded. -/
def descendants : Node → List Node
  | Node.document cs => descendantsList cs
  | Node.element _ _ cs => descendantsList cs
  | _ => []
/-- Modelled from the spec: the nodes of a sequence of subtrees of the data
model, in document order. -/
def descendantsList : List Node → List Node
  | [] => []
  | n :: rest => n :: (descendants n ++ descendantsList rest)
end

/-- Modelled from the spec: a value bound to a variable (section 3, variable
bindings of the TransformContext). -/
inductive Value where
  | string (s : String)
  | nodeSet (nodes : List Node)
  deriving Repr

/-- Modelled from the spec: the TransformContext of section 3, without the
output tree, which evaluation returns instead of mutating: current node,
current node list with the position of the current node in it, mode, the
stack of variable bindings (innermost first) and the global bindings. `root`
is the document the current node belongs to. -/
structure TransformContext where
  root : Node
  current : Node
  nodeList : List Node
  position : Nat
  mode : Option String
  bindings : List (String × Value)
  globals : List (String × Value)

/-- Modelled from the spec: a compiled expression of a stylesheet that yields
a string, as a function of the transformation context. -/
abbrev StringExpr : Type := TransformContext → Except EngineError String

/-- Modelled from the spec: a compiled selector of a stylesheet; it yields a
node list. -/
abbrev NodeSetExpr : Type := TransformContext → Except EngineError (List Node)

/-- Modelled from the spec: a compiled boolean predicate of a stylesheet. -/
abbrev BoolExpr : Type := TransformContext → Except EngineError Bool

/-- Modelled from the spec: a compiled defining expression of a variable. -/
abbrev ValueExpr : Type := TransformContext → Except EngineError Value

/-- Modelled from the spec: a reference to a variable; the innermost binding
shadows the outer ones and the globals, and a missing identifier is an error
naming it (section 4.1, failure modes). -/
def lookupVariable (ctx : TransformContext) (name : String) : Except EngineError Value :=
  match ctx.bindings.lookup name with
  | some v => Except.ok v
  | none =>
    match ctx.globals.lookup name with
    | some v => Except.ok v
    | none => Except.error (EngineError.undefinedReference name)

/-- Modelled from the spec: the declared data type of a sort key, text or
number (section 4.1). -/
inductive SortDataType where
  | text
  | number
  deriving DecidableEq, Repr

/-- Modelled from the spec: the `sort` instruction inside `apply-templates`
(section 4.1): a computed key, its declared data type, and the direction. -/
structure SortSpec where
  key : StringExpr
  dataType : SortDataType
  descending : Bool

/-- Modelled from the spec: the output instructions of a CompiledTemplate
(section 3). -/
inductive Instruction where
  | literalElement (name : String) (attributes : List (String × StringExpr))
      (body : List Instruction)
  | literalText (content : String)
  | valueOf (select : StringExpr)
  | applyTemplates (select : Option NodeSetExpr) (mode : Option String)
      (sort : Option SortSpec)
  | forEach (select : NodeSetExpr) (sort : Option SortSpec) (body : List Instruction)
  | choose (whens : List (BoolExpr × List Instruction)) (otherwise : List Instruction)
  | callTemplate (name : String)
  | variableBinding (name : String) (value : ValueExpr)

/-- Modelled from the spec: a compiled match pattern, a test on a node
together with the priority computed from its specificity. -/
structure Pattern where
  test : Node → Bool
  specificity : Int

/-- Modelled from the spec: the CompiledTemplate of section 3. -/
structure CompiledTemplate where
  pattern : Pattern
  priority : Option Int
  mode : Option String
  body : List Instruction

/-- Modelled from the spec: the output method declared by a stylesheet
(section 2, serializer). -/
inductive OutputMethod where
  | xml
  | html
  | text
  deriving DecidableEq, Repr

/-- Modelled from the spec: the Stylesheet of section 3; `templates` is in
declaration order. -/
structure Stylesheet where
  templates : List CompiledTemplate
  namedTemplates : List (String × List Instruction)
  globals : List (String × ValueExpr)
  outputMethod : OutputMethod
  encoding : String

/-- Modelled from the spec: the priority of a template (section 3): the
explicit one, or else the one computed from the specificity of the pattern. -/
def effectivePriority (t : CompiledTemplate) : Int :=
  match t.priority with
  | some p => p
  | none => t.pattern.specificity

/-- Modelled from the spec: a template is a candidate for a node in a mode
when its pattern matches the node and it is declared for that mode. -/
def applicable (t : CompiledTemplate) (n : Node) (mode : Option String) : Bool :=
  t.pattern.test n && decide (t.mode = mode)

/-- Modelled from the spec: the conflict resolution of section 4.1 as a scan of
the templates in declaration order, `best` being the choice among those
already seen: a candidate replaces it when its priority is at least as
high, so that among equal priorities the one declared last stays. -/
def selectFrom (n : Node) (mode : Option String) :
    List CompiledTemplate → Option CompiledTemplate → Option CompiledTemplate
  | [], best => best
  | t :: rest, best =>
    if applicable t n mode then
      match best with
      | none => selectFrom n mode rest (some t)
      | some b =>
        if effectivePriority b ≤ effectivePriority t then selectFrom n mode rest (some t)
        else selectFrom n mode rest (some b)
    else selectFrom n mode rest best

/-- Modelled from the spec: template selection (section 4.1): the template
whose pattern matches the node with highest priority, ties broken by last
declared wins; none when no template matches. -/
def selectTemplate (ss : Stylesheet) (n : Node) (mode : Option String) :
    Option CompiledTemplate :=
  selectFrom n mode ss.templates none

/-- Modelled from the spec: the built-in default templates (section 4.1):
elements and documents recurse into their children in the same mode, text and
attribute nodes copy their string value, comments and processing instructions
produce nothing. -/
def builtInTemplate (n : Node) (mode : Option String) : List Instruction :=
  match n with
  | Node.document _ => [Instruction.applyTemplates none mode none]
  | Node.element _ _ _ => [Instruction.applyTemplates none mode none]
  | Node.text _ => [Instruction.valueOf (fun ctx => Except.ok (stringValue ctx.current))]
  | Node.attribute _ _ =>
      [Instruction.valueOf (fun ctx => Except.ok (stringValue ctx.current))]
  | Node.comment _ => []
  | Node.processingInstruction _ _ => []

/-- Modelled from the spec: the body instantiated for a node in a mode: that
of the selected template, or the built-in one when no template matches. -/
def templateBodyFor (ss : Stylesheet) (n : Node) (mode : Option String) : List Instruction :=
  match selectTemplate ss n mode with
  | some t => t.body
  | none => builtInTemplate n mode

/-- Modelled from the spec: a sort key read according to its declared data
type. -/
inductive SortKey where
  | text (s : String)
  | number (n : Option Int)

/-- Modelled from the spec: the ascending order of two keys of a sort; a key
that is no number sorts first. -/
def SortKey.le : SortKey → SortKey → Bool
  | SortKey.text a, SortKey.text b => decide (a ≤ b)
  | SortKey.number none, SortKey.number _ => true
  | SortKey.number (some _), SortKey.number none => false
  | SortKey.number (some a), SortKey.number (some b) => decide (a ≤ b)
  | SortKey.text _, SortKey.number _ => true
  | SortKey.number _, SortKey.text _ => false

/-- Modelled from the spec: the computed keys of the nodes of a list, each
computed with the node as current node at its position in the list. -/
def sortKeys (spec : SortSpec) (ctx : TransformContext) (all : List Node) :
    Nat → List Node → Except EngineError (List (SortKey × Node))
  | _, [] => Except.ok []
  | pos, n :: rest => do
    let s ← spec.key { ctx with current := n, nodeList := all, position := pos }
    let k := match spec.dataType with
      | SortDataType.text => SortKey.text s
      | SortDataType.number => SortKey.number s.toInt?
    let tail ← sortKeys spec ctx all (pos + 1) rest
    pure ((k, n) :: tail)

/-- Modelled from the spec: one step of the stable sort, the insertion of a
keyed node into a sorted list after the entries that may stay before it. -/
def insertKeyed (le : SortKey → SortKey → Bool) (x : SortKey × Node) :
    List (SortKey × Node) → List (SortKey × Node)
  | [] => [x]
  | y :: rest => if le y.1 x.1 then y :: insertKeyed le x rest else x :: y :: rest

/-- Modelled from the spec: the sort of a selected node list (section 4.1):
stable, by computed key, ascending unless reversed; without a `sort` the list
keeps its order. -/
def sortNodes (sort : Option SortSpec) (ctx : TransformContext) (nodes : List Node) :
    Except EngineError (List Node) :=
  match sort with
  | none => Except.ok nodes
  | some spec => do
    let keyed ← sortKeys spec ctx nodes 1 nodes
    let le : SortKey → SortKey → Bool :=
      if spec.descending then (fun a b => SortKey.le b a) else SortKey.le
    pure ((keyed.foldl (fun acc x => insertKeyed le x acc) []).map Prod.snd)

/-- Modelled from the spec: the computed attribute values of a literal result
element (section 4.1). -/
def evalAttributes (ctx : TransformContext) :
    List (String × StringExpr) → Except EngineError (List (String × String))
  | [] => Except.ok []
  | (k, e) :: rest => do
    let v ← e ctx
    let tail ← evalAttributes ctx rest
    pure ((k, v) :: tail)

/-- Modelled from the spec: `choose` (section 4.1): the predicates are
evaluated in order and the body of the first true one is chosen, or the
`otherwise` body when none is true. -/
def chooseBranch (ctx : TransformContext) (otherwise : List Instruction) :
    List (BoolExpr × List Instruction) → Except EngineError (List Instruction)
  | [] => Except.ok otherwise
  | (cond, body) :: rest => do
    let holds ← cond ctx
    if holds then pure body else chooseBranch ctx otherwise rest

/-- Modelled from the spec: the processing of a selected node list (section
4.1): every node of `nodes` is processed in order by `step`, each as current
node with its position in the whole list `all`; the outputs are appended in
that order. -/
def overNodes (step : TransformContext → Except EngineError (List Node))
    (ctx : TransformContext) (all : List Node) :
    Nat → List Node → Except EngineError (List Node)
  | _, [] => Except.ok []
  | pos, n :: rest => do
    let out ← step { ctx with current := n, nodeList := all, position := pos }
    let tail ← overNodes step ctx all (pos + 1) rest
    pure (out ++ tail)

/-- Modelled from the spec: the application of templates to the current node
(section 4.1): the body found for the node in the current mode is evaluated by
`evaluate` with that node as current node. -/
def applyTemplate (evaluate : TransformContext → List Instruction → Except EngineError (List Node))
    (ss : Stylesheet) (ctx : TransformContext) : Except EngineError (List Node) :=
  evaluate ctx (templateBodyFor ss ctx.current ctx.mode)

/-- Modelled from the spec: the evaluation of a sequence of output
instructions (section 4.1).  The result is the list of nodes appended to the
open node of the result tree, in document order.  `depth` is the stack
available: every instruction evaluated and every nested body takes one unit,
and an evaluation that needs more than there is ends in the
resource-exhaustion failure. -/
def instantiate : Nat → Stylesheet → TransformContext → List Instruction →
    Except EngineError (List Node)
  | 0, _, _, _ => Except.error EngineError.resourceExhaustion
  | _ + 1, _, _, [] => Except.ok []
  | depth + 1, ss, ctx, Instruction.literalText s :: rest => do
    let tail ← instantiate depth ss ctx rest
    pure (Node.text s :: tail)
  | depth + 1, ss, ctx, Instruction.valueOf select :: rest => do
    let s ← select ctx
    let tail ← instantiate depth ss ctx rest
    pure (Node.text s :: tail)
  | depth + 1, ss, ctx, Instruction.literalElement name attributes body :: rest => do
    let attrs ← evalAttributes ctx attributes
    let children ← instantiate depth ss ctx body
    let tail ← instantiate depth ss ctx rest
    pure (Node.element name attrs children :: tail)
  | depth + 1, ss, ctx, Instruction.applyTemplates select mode sort :: rest => do
    let selected ← match select with
      | some e => e ctx
      | none => Except.ok ctx.current.childNodes
    let nodes ← sortNodes sort ctx selected
    let out ← overNodes (applyTemplate (instantiate depth ss) ss)
      { ctx with mode := mode, bindings := [] } nodes 1 nodes
    let tail ← instantiate depth ss ctx rest
    pure (out ++ tail)
  | depth + 1, ss, ctx, Instruction.forEach select sort body :: rest => do
    let selected ← select ctx
    let nodes ← sortNodes sort ctx selected
    let out ← overNodes (fun c => instantiate depth ss c body) ctx nodes 1 nodes
    let tail ← instantiate depth ss ctx rest
    pure (out ++ tail)
  | depth + 1, ss, ctx, Instruction.choose whens otherwise :: rest => do
    let body ← chooseBranch ctx otherwise whens
    let out ← instantiate depth ss ctx body
    let tail ← instantiate depth ss ctx rest
    pure (out ++ tail)
  | depth + 1, ss, ctx, Instruction.callTemplate name :: rest => do
    let body ← match ss.namedTemplates.lookup name with
      | some b => Except.ok b
      | none => Except.error (EngineError.undefinedReference name)
    let out ← instantiate depth ss { ctx with bindings := [] } body
    let tail ← instantiate depth ss ctx rest
    pure (out ++ tail)
  | depth + 1, ss, ctx, Instruction.variableBinding name value :: rest => do
    let v ← value ctx
    instantiate depth ss { ctx with bindings := (name, v) :: ctx.bindings } rest

/-- Modelled from the spec: the global bindings of a stylesheet (section 3),
evaluated in declaration order at the document root. -/
def evalGlobals (root : Node) :
    List (String × ValueExpr) → List (String × Value) →
      Except EngineError (List (String × Value))
  | [], done => Except.ok done
  | (name, e) :: rest, done => do
    let v ← e { root := root, current := root, nodeList := [root], position := 1,
                mode := none, bindings := [], globals := done }
    evalGlobals root rest (done ++ [(name, v)])

/-- Modelled from the spec: the contract `transform(sourceTree, stylesheet)`
of section 4.1: evaluation begins at the document root with the default mode
and an empty variable scope; the result is a complete result tree or an
error. -/
def transform (depth : Nat) (sourceTree : Node) (ss : Stylesheet) :
    Except EngineError (List Node) := do
  let globals ← evalGlobals sourceTree ss.globals []
  applyTemplate (instantiate depth ss) ss
    { root := sourceTree, current := sourceTree, nodeList := [sourceTree], position := 1,
      mode := none, bindings := [], globals := globals }

/-- Modelled from the spec: the three flags of the call contract (section 6),
as the parser receives them. -/
structure ParseOptions where
  processIncludes : Bool
  loadExternalSubsets : Bool
  validate : Bool
  deriving DecidableEq, Repr

/-- Modelled from the spec: what reading the text of a source document gives
before any flag acts: the
node tree with XInclude directives still in place as literal elements, the
internal subset of the doctype if there is one, and the reference to an
external subset if the doctype has one.  `Dtd` is the type of parsed
subsets. -/
structure SourceDocument (Dtd : Type) where
  tree : Node
  internalSubset : Option Dtd
  externalSubset : Option String

/-- Modelled from the spec: the collaborators of the engine (sections 4.2 to
4.4 and 6), given by their interface only; none of them is in the
repository. -/
structure Collaborators (Dtd : Type) where
  /-- reading of well-formed text; a parse error otherwise -/
  readDocument : String → Except EngineError (SourceDocument Dtd)
  /-- fetching and parsing of a referenced external subset -/
  fetchSubset : String → Except EngineError Dtd
  /-- default-attribute and entity resolution from an external subset -/
  applySubset : Dtd → Node → Node
  /-- the reference carried by a node that is an XInclude directive -/
  includeReference : Node → Option String
  /-- fetching and parsing of the content an XInclude directive refers to -/
  fetchInclude : String → Except EngineError (List Node)
  /-- conformance of a tree to the declared DTD: internal and loaded external subset -/
  conforms : Option Dtd → Option Dtd → Node → Bool
  /-- the stylesheet compiler -/
  compile : String → Except EngineError Stylesheet
  /-- the serializer -/
  serialize : List Node → OutputMethod → String → Except EngineError String

mutual
/-- Modelled from the spec: whether a source tree contains an XInclude
directive (section 8, flag independence). -/
def containsInclude (ref : Node → Option String) : Node → Bool
  | Node.document cs => containsIncludeList ref cs
  | Node.element name attrs cs =>
      (ref (Node.element name attrs cs)).isSome || containsIncludeList ref cs
  | _ => false
/-- Modelled from the spec: whether one of a sequence of source trees contains
an XInclude directive. -/
def containsIncludeList (ref : Node → Option String) : List Node → Bool
  | [] => false
  | n :: rest => containsInclude ref n || containsIncludeList ref rest
end

mutual
/-- Modelled from the spec: the resolution of XInclude directives (section 6,
`processIncludes`): every directive is replaced by the referenced content,
fetched and inlined in its place; all other nodes stay. -/
def resolveIncludes (ref : Node → Option String)
    (fetch : String → Except EngineError (List Node)) : Node → Except EngineError (List Node)
  | Node.document cs => do
    let cs1 ← resolveIncludesList ref fetch cs
    pure [Node.document cs1]
  | Node.element name attrs cs =>
    match ref (Node.element name attrs cs) with
    | some target => fetch target
    | none => do
      let cs1 ← resolveIncludesList ref fetch cs
      pure [Node.element name attrs cs1]
  | Node.text s => Except.ok [Node.text s]
  | Node.comment s => Except.ok [Node.comment s]
  | Node.processingInstruction t s => Except.ok [Node.processingInstruction t s]
  | Node.attribute k v => Except.ok [Node.attribute k v]
/-- Modelled from the spec: the resolution of the XInclude directives in a
sequence of children. -/
def resolveIncludesList (ref : Node → Option String)
    (fetch : String → Except EngineError (List Node)) :
    List Node → Except EngineError (List Node)
  | [] => Except.ok []
  | n :: rest => do
    let a ← resolveIncludes ref fetch n
    let b ← resolveIncludesList ref fetch rest
    pure (a ++ b)
end

/-- Modelled from the spec: the external subset stage of the parser (section
6, `loadExternalSubsets`): when the flag is set, the subset the doctype refers
to is fetched, parsed and applied; when it is not set, or when the doctype
refers to none, nothing is loaded. -/
def loadExternalSubset {Dtd : Type} (c : Collaborators Dtd) (flag : Bool)
    (doc : SourceDocument Dtd) : Except EngineError (Option Dtd × Node) :=
  if flag then
    match doc.externalSubset with
    | some reference => do
      let subset ← c.fetchSubset reference
      pure (some subset, c.applySubset subset doc.tree)
    | none => Except.ok (none, doc.tree)
  else Except.ok (none, doc.tree)

/-- Modelled from the spec: the include stage of the parser (section 6,
`processIncludes`): when the flag is set the directives are resolved, and the
result has to be one document again; when it is not set they are left as
literal elements. -/
def processIncludes {Dtd : Type} (c : Collaborators Dtd) (flag : Bool) (tree : Node) :
    Except EngineError Node :=
  if flag then do
    let resolved ← resolveIncludes c.includeReference c.fetchInclude tree
    match resolved with
    | [t] => pure t
    | _ => Except.error (EngineError.parseError "included content is not a document")
  else Except.ok tree

/-- Modelled from the spec: the parser `parse(xmlText, options)` of section 6:
the text is read, then each flag governs its own stage, and a document that
does not validate when validation is requested fails the call before any
transformation. -/
def parse {Dtd : Type} (c : Collaborators Dtd) (xmlText : String) (options : ParseOptions) :
    Except EngineError Node := do
  let doc ← c.readDocument xmlText
  let loaded ← loadExternalSubset c options.loadExternalSubsets doc
  let tree ← processIncludes c options.processIncludes loaded.2
  if options.validate && !(c.conforms doc.internalSubset loaded.1 tree) then
    Except.error (EngineError.validationError "the document does not conform to its DTD")
  else pure tree

/-- Modelled from the spec: the native `xslt_transform` declared on line 9,
whose definition is not in the repository, as the control flow of section 2:
parser, stylesheet compiler, transformation engine, serializer.  The result is
the serialized output or a failure, never a partial string. -/
def xslt_transform {Dtd : Type} (c : Collaborators Dtd) (depth : Nat)
    (xslt_doc xml_doc : String)
    (process_includes load_external_subsets validate_xml : Bool) :
    Except EngineError String := do
  let source ← parse c xml_doc
    { processIncludes := process_includes, loadExternalSubsets := load_external_subsets,
      validate := validate_xml }
  let stylesheet ← c.compile xslt_doc
  let result ← transform depth source stylesheet
  c.serialize result stylesheet.outputMethod stylesheet.encoding

/-- Modelled from the spec: the human-readable message of a failure, led by
its taxonomy tag (section 7). -/
def EngineError.message : EngineError → String
  | EngineError.parseError m => "ParseError: " ++ m
  | EngineError.validationError m => "ValidationError: " ++ m
  | EngineError.compileError m => "CompileError: " ++ m
  | EngineError.undefinedReference name => "UndefinedReferenceError: " ++ name
  | EngineError.resourceExhaustion => "ResourceExhaustionError"
  | EngineError.serializationError m => "SerializationError: " ++ m
  | EngineError.resourceFetchError r => "ResourceFetchError: " ++ r

/-- The host whose native function is the modelled `xslt_transform`: a failure
of the engine is thrown as an exception carrying its message, and the session
is left alone. -/
def engineHost {SEXP World Dtd : Type} (base : Host SEXP World) (c : Collaborators Dtd)
    (depth : Nat) : Host SEXP World where
  asString := base.asString
  asBool := base.asBool
  wrap := base.wrap
  getRNGstate := base.getRNGstate
  putRNGstate := base.putRNGstate
  xslt_transform := fun s x a b v w =>
    match xslt_transform c depth s x a b v with
    | Except.ok r => (Except.ok r, w)
    | Except.error e => (Except.error (CppException.stdException e.message), w)

/-! ### The stylesheets and documents of the testable properties -/

/-- Modelled from the spec: the pattern `/`: it matches the document root.  Specificities are counted
in halves, so this is the priority one half. -/
def rootPattern : Pattern where
  test := fun n =>
    match n with
    | Node.document _ => true
    | _ => false
  specificity := 1

/-- Modelled from the spec: the pattern made of an element name: it matches the elements so named. -/
def elementPattern (name : String) : Pattern where
  test := fun n =>
    match n with
    | Node.element k _ _ => k == name
    | _ => false
  specificity := 0

/-- Modelled from the spec: the pattern `*`: it matches every element, with the lowest specificity. -/
def anyElementPattern : Pattern where
  test := fun n =>
    match n with
    | Node.element _ _ _ => true
    | _ => false
  specificity := -1

/-- Modelled from the spec: the selector `//name`: the elements of that name among the descendants of
the document root, in document order. -/
def descendantElements (name : String) : NodeSetExpr :=
  fun ctx => Except.ok ((descendants ctx.root).filter (elementPattern name).test)

/-- Modelled from the spec: the expression `count(selector)`: the number of selected nodes, written in
decimal. -/
def countOf (selector : NodeSetExpr) : StringExpr :=
  fun ctx => do
    let nodes ← selector ctx
    pure (toString nodes.length)

/-- Modelled from the spec: the stylesheet of the scenario, compiled: its only template is
`<xsl:template match="/"><out><xsl:value-of select="count(//item)"/></out></xsl:template>`,
and it declares no output method, so the defaults XML and UTF-8 hold. -/
def scenarioStylesheet : Stylesheet where
  templates :=
    [{ pattern := rootPattern, priority := none, mode := none,
       body := [Instruction.literalElement "out" []
         [Instruction.valueOf (countOf (descendantElements "item"))]] }]
  namedTemplates := []
  globals := []
  outputMethod := OutputMethod.xml
  encoding := "UTF-8"

/-- Modelled from the spec: the source of the scenario, `<root><item/><item/></root>`, as a node tree. -/
def scenarioSource : Node :=
  Node.document [Node.element "root" [] [Node.element "item" [] [], Node.element "item" [] []]]

/-- Modelled from the spec: a template for the elements named `item` that emits the text `first`. -/
def tieBreakFirst : CompiledTemplate where
  pattern := elementPattern "item"
  priority := none
  mode := none
  body := [Instruction.literalText "first"]

/-- Modelled from the spec: a template for the elements named `item` that emits the text `second`. -/
def tieBreakSecond : CompiledTemplate where
  pattern := elementPattern "item"
  priority := none
  mode := none
  body := [Instruction.literalText "second"]

/-- Modelled from the spec: a template for all elements, of lower priority, that emits the text `any`. -/
def tieBreakAny : CompiledTemplate where
  pattern := anyElementPattern
  priority := none
  mode := none
  body := [Instruction.literalText "any"]

/-- Modelled from the spec: two templates that match the same element name with equal priority and
emit distinguishable literal text, followed by a template of lower priority
for all elements. -/
def tieBreakStylesheet : Stylesheet where
  templates := [tieBreakFirst, tieBreakSecond, tieBreakAny]
  namedTemplates := []
  globals := []
  outputMethod := OutputMethod.text
  encoding := "UTF-8"

/-! ### The collaborators on text: reader, stylesheet compiler, serializer

The specification gives the three collaborators by their interface.  The
definitions below fill the interface for the part of XML and of the stylesheet
language that the testable properties use: elements, attributes, text,
comments, processing instructions and a doctype in documents; templates with
the output instructions of section 3 in stylesheets.  What lies outside that
part is refused with a parse or compile error, never read as something else. -/

/-- Modelled from the spec: white space of XML text. -/
def isSpace (c : Char) : Bool :=
  c == ' ' || c == Char.ofNat 9 || c == Char.ofNat 10 || c == Char.ofNat 13

/-- Modelled from the spec: the characters of an XML name. -/
def isNameChar (c : Char) : Bool :=
  c.isAlphanum || c == '_' || c == '-' || c == '.' || c == ':' || 127 < c.toNat

/-- Modelled from the spec: the longest run of characters satisfying `p` at the head of a text, and
the rest of the text. -/
def spanChars (p : Char → Bool) : List Char → List Char × List Char
  | [] => ([], [])
  | c :: cs =>
    if p c then ((c :: (spanChars p cs).1), (spanChars p cs).2) else ([], c :: cs)

/-- Modelled from the spec: the text without its leading white space. -/
def skipSpaces : List Char → List Char
  | [] => []
  | c :: cs => if isSpace c then skipSpaces cs else c :: cs

/-- Modelled from the spec: the rest of a text after a given beginning, if it begins so. -/
def stripStart : List Char → List Char → Option (List Char)
  | [], cs => some cs
  | _ :: _, [] => none
  | p :: ps, c :: cs => if p == c then stripStart ps cs else none

/-- Modelled from the spec: the text before the first occurrence of `stop` and the text after it. -/
def splitAtFirst (stop : List Char) : List Char → Option (List Char × List Char)
  | [] => if stop.isEmpty then some ([], []) else none
  | c :: cs =>
    match stripStart stop (c :: cs) with
    | some rest => some ([], rest)
    | none =>
      match splitAtFirst stop cs with
      | some (before, rest) => some (c :: before, rest)
      | none => none

/-- Modelled from the spec: the five predefined entity references of XML are
replaced by their characters; any other reference stays as written, for the
resolution from a subset. -/
def decodeEntities : List Char → List Char
  | [] => []
  | '&' :: 'l' :: 't' :: ';' :: cs => '<' :: decodeEntities cs
  | '&' :: 'g' :: 't' :: ';' :: cs => '>' :: decodeEntities cs
  | '&' :: 'a' :: 'm' :: 'p' :: ';' :: cs => '&' :: decodeEntities cs
  | '&' :: 'q' :: 'u' :: 'o' :: 't' :: ';' :: cs => Char.ofNat 34 :: decodeEntities cs
  | '&' :: 'a' :: 'p' :: 'o' :: 's' :: ';' :: cs => Char.ofNat 39 :: decodeEntities cs
  | c :: cs => c :: decodeEntities cs

/-- Modelled from the spec: a quoted literal at the head of a text: its content and the text after the
closing quote. -/
def readQuoted : List Char → Option (List Char × List Char)
  | [] => none
  | q :: cs =>
    if q == Char.ofNat 34 || q == Char.ofNat 39 then splitAtFirst [q] cs else none

/-- Modelled from the spec: the attributes of a start tag, up to the end of the
tag, which is left in place. -/
def readAttributes : Nat → List Char →
    Except EngineError (List (String × String) × List Char)
  | 0, _ => Except.error (EngineError.parseError "tag too long")
  | fuel + 1, cs =>
    match skipSpaces cs with
    | [] => Except.error (EngineError.parseError "unfinished tag")
    | c :: rest =>
      if c == '>' || c == '/' then Except.ok ([], c :: rest)
      else
        match spanChars isNameChar (c :: rest) with
        | ([], _) => Except.error (EngineError.parseError "attribute name expected")
        | (name, afterName) =>
          match skipSpaces afterName with
          | '=' :: afterEq =>
            match readQuoted (skipSpaces afterEq) with
            | some (value, afterValue) => do
              let more ← readAttributes fuel afterValue
              if (more.1.map Prod.fst).contains (String.mk name) then
                Except.error (EngineError.parseError "attribute given twice")
              else
                pure ((String.mk name, String.mk (decodeEntities value)) :: more.1, more.2)
            | none => Except.error (EngineError.parseError "attribute value expected")
          | _ => Except.error (EngineError.parseError "attribute value expected")

/-- Modelled from the spec: the content of an element or of a document: text,
elements, comments and processing instructions, up to an end tag, which is
left in place, or to the end of the text. -/
def readContent : Nat → List Char → Except EngineError (List Node × List Char)
  | 0, _ => Except.error (EngineError.parseError "document too deep")
  | _ + 1, [] => Except.ok ([], [])
  | _ + 1, '<' :: '/' :: cs => Except.ok ([], '<' :: '/' :: cs)
  | fuel + 1, '<' :: '!' :: '-' :: '-' :: cs =>
    match splitAtFirst ['-', '-', '>'] cs with
    | some (body, rest) => do
      let more ← readContent fuel rest
      pure (Node.comment (String.mk body) :: more.1, more.2)
    | none => Except.error (EngineError.parseError "unfinished comment")
  | _ + 1, '<' :: '!' :: _ =>
    Except.error (EngineError.parseError "unexpected declaration")
  | fuel + 1, '<' :: '?' :: cs =>
    match splitAtFirst ['?', '>'] cs with
    | some (body, rest) => do
      let more ← readContent fuel rest
      pure (Node.processingInstruction (String.mk (spanChars isNameChar body).1)
        (String.mk (skipSpaces (spanChars isNameChar body).2)) :: more.1, more.2)
    | none => Except.error (EngineError.parseError "unfinished processing instruction")
  | fuel + 1, '<' :: cs =>
    match spanChars isNameChar cs with
    | ([], _) => Except.error (EngineError.parseError "element name expected")
    | (name, afterName) => do
      let attrs ← readAttributes fuel afterName
      match attrs.2 with
      | '/' :: '>' :: rest => do
        let more ← readContent fuel rest
        pure (Node.element (String.mk name) attrs.1 [] :: more.1, more.2)
      | '>' :: rest => do
        let inner ← readContent fuel rest
        match stripStart ('<' :: '/' :: name) inner.2 with
        | some afterEnd =>
          match skipSpaces afterEnd with
          | '>' :: afterTag => do
            let more ← readContent fuel afterTag
            pure (Node.element (String.mk name) attrs.1 inner.1 :: more.1, more.2)
          | _ => Except.error (EngineError.parseError "end tag expected")
        | none => Except.error (EngineError.parseError "end tag expected")
      | _ => Except.error (EngineError.parseError "unfinished tag")
  | fuel + 1, c :: cs => do
    let more ← readContent fuel (spanChars (fun d => d != '<') (c :: cs)).2
    pure (Node.text (String.mk (decodeEntities (spanChars (fun d => d != '<') (c :: cs)).1))
      :: more.1, more.2)


/-- Modelled from the spec: the doctype of a document, read after its opening
keyword: the reference to an external subset and the text of an internal
subset, each if present, and the text after the declaration. -/
def readDoctype (cs : List Char) :
    Except EngineError ((Option String × Option String) × List Char) :=
  let afterName := skipSpaces (spanChars isNameChar (skipSpaces cs)).2
  let external : Except EngineError (Option String × List Char) :=
    match stripStart "SYSTEM".toList afterName with
    | some r =>
      match readQuoted (skipSpaces r) with
      | some (system, rest) => Except.ok (some (String.mk system), rest)
      | none => Except.error (EngineError.parseError "system identifier expected")
    | none =>
      match stripStart "PUBLIC".toList afterName with
      | some r =>
        match readQuoted (skipSpaces r) with
        | some (_, afterPublic) =>
          match readQuoted (skipSpaces afterPublic) with
          | some (system, rest) => Except.ok (some (String.mk system), rest)
          | none => Except.error (EngineError.parseError "system identifier expected")
        | none => Except.error (EngineError.parseError "public identifier expected")
      | none => Except.ok (none, afterName)
  match external with
  | Except.error e => Except.error e
  | Except.ok (reference, afterExternal) =>
    match skipSpaces afterExternal with
    | '[' :: inner =>
      match splitAtFirst [']'] inner with
      | some (subset, afterSubset) =>
        match skipSpaces afterSubset with
        | '>' :: rest => Except.ok ((reference, some (String.mk subset)), rest)
        | _ => Except.error (EngineError.parseError "unfinished doctype")
      | none => Except.error (EngineError.parseError "unfinished doctype")
    | '>' :: rest => Except.ok ((reference, none), rest)
    | _ => Except.error (EngineError.parseError "unfinished doctype")

/-- Modelled from the spec: the text after an XML declaration at its head, or the text itself when it
has none. -/
def skipXmlDeclaration (cs : List Char) : Except EngineError (List Char) :=
  match stripStart "<?xml".toList cs with
  | some (c :: rest) =>
    if isSpace c || c == '?' then
      match splitAtFirst ['?', '>'] (c :: rest) with
      | some (_, after) => Except.ok after
      | none => Except.error (EngineError.parseError "unfinished XML declaration")
    else Except.ok cs
  | _ => Except.ok cs

/-- Modelled from the spec: the nodes allowed beside the root element of a
document: comments and processing instructions; white space is dropped and
other text is an error. -/
def topLevelNodes : List Node → Except EngineError (List Node)
  | [] => Except.ok []
  | Node.text s :: rest =>
    if s.toList.all isSpace then topLevelNodes rest
    else Except.error (EngineError.parseError "text outside the root element")
  | n :: rest => do
    let more ← topLevelNodes rest
    pure (n :: more)

/-- Modelled from the spec: the number of elements among the nodes of a list. -/
def countElements : List Node → Nat
  | [] => 0
  | Node.element _ _ _ :: rest => countElements rest + 1
  | _ :: rest => countElements rest

/-- Modelled from the spec: the reading of the text of a document (section 4.2,
before any flag acts): well-formed text gives the node tree under a document
root, with the subsets its doctype declares; anything else is a parse error.
`parseSubset` reads the text of an internal subset. -/
def readXml {Dtd : Type} (parseSubset : String → Except EngineError Dtd) (text : String) :
    Except EngineError (SourceDocument Dtd) := do
  let afterDeclaration ← skipXmlDeclaration (skipSpaces text.toList)
  let prolog ← match stripStart "<!DOCTYPE".toList (skipSpaces afterDeclaration) with
    | some r => readDoctype r
    | none => Except.ok ((none, none), afterDeclaration)
  let internal ← match prolog.1.2 with
    | some subset => do
      let d ← parseSubset subset
      pure (some d)
    | none => Except.ok none
  let content ← readContent (prolog.2.length + 1) prolog.2
  match content.2 with
  | [] => do
    let top ← topLevelNodes content.1
    if countElements top = 1 then
      pure { tree := Node.document top, internalSubset := internal,
             externalSubset := prolog.1.1 }
    else Except.error (EngineError.parseError "a document has exactly one root element")
  | _ => Except.error (EngineError.parseError "end tag without start tag")

/-- Modelled from the spec: an XInclude directive in a document: an element
named `xi:include`, with the customary prefix of the XInclude namespace; it
refers to its `href`. -/
def xincludeReference : Node → Option String
  | Node.element "xi:include" attrs _ => attrs.lookup "href"
  | _ => none

/-! #### Expressions of the stylesheet language -/

/-- Modelled from the spec: a test on the kind and name of a node, as it
occurs in selectors and match patterns. -/
inductive NodeTest where
  | anyNode
  | anyElement
  | element (name : String)
  | text
  | comment
  | processingInstruction
  deriving DecidableEq, Repr

/-- Modelled from the spec: the nodes a test accepts. -/
def NodeTest.accepts (test : NodeTest) (n : Node) : Bool :=
  match test with
  | NodeTest.anyNode =>
    match n with
    | Node.document _ => false
    | Node.attribute _ _ => false
    | _ => true
  | NodeTest.anyElement => anyElementPattern.test n
  | NodeTest.element name => (elementPattern name).test n
  | NodeTest.text =>
    match n with
    | Node.text _ => true
    | _ => false
  | NodeTest.comment =>
    match n with
    | Node.comment _ => true
    | _ => false
  | NodeTest.processingInstruction =>
    match n with
    | Node.processingInstruction _ _ => true
    | _ => false

/-- Modelled from the spec: the selectors read by the compiler: the document
root, the current node, children, descendants of the root or of the current
node, and attributes. -/
inductive NodeSetForm where
  | root
  | self
  | children (test : NodeTest)
  | descendantsOfRoot (test : NodeTest)
  | descendantsOfSelf (test : NodeTest)
  | attributes (name : Option String)
  deriving DecidableEq, Repr

/-- Modelled from the spec: the string expressions read by the compiler. -/
inductive StringForm where
  | literal (s : String)
  | count (selector : NodeSetForm)
  | position
  | last
  | name
  | variableReference (name : String)
  | nodes (selector : NodeSetForm)
  deriving DecidableEq, Repr

/-- Modelled from the spec: the boolean predicates read by the compiler. -/
inductive BoolForm where
  | true
  | false
  | not (b : BoolForm)
  | equal (a b : StringForm)
  | nonEmpty (selector : NodeSetForm)
  | nonEmptyString (s : StringForm)
  deriving DecidableEq, Repr

/-- Modelled from the spec: the attributes of a node as attribute nodes, all of them or the one of a
given name. -/
def attributeNodes (name : Option String) : Node → List Node
  | Node.element _ attrs _ =>
    (attrs.filter (fun kv => match name with
      | some k => kv.1 == k
      | none => true)).map (fun kv => Node.attribute kv.1 kv.2)
  | _ => []

/-- Modelled from the spec: the node list a selector yields in a context, in
document order. -/
def evalNodeSet : NodeSetForm → NodeSetExpr
  | NodeSetForm.root => fun ctx => Except.ok [ctx.root]
  | NodeSetForm.self => fun ctx => Except.ok [ctx.current]
  | NodeSetForm.children test =>
      fun ctx => Except.ok (ctx.current.childNodes.filter test.accepts)
  | NodeSetForm.descendantsOfRoot test =>
      fun ctx => Except.ok ((descendants ctx.root).filter test.accepts)
  | NodeSetForm.descendantsOfSelf test =>
      fun ctx => Except.ok ((descendants ctx.current).filter test.accepts)
  | NodeSetForm.attributes name => fun ctx => Except.ok (attributeNodes name ctx.current)

/-- Modelled from the spec: the name of a node that has one. -/
def Node.nodeName : Node → String
  | Node.element name _ _ => name
  | Node.attribute name _ => name
  | Node.processingInstruction target _ => target
  | _ => ""

/-- Modelled from the spec: the string a value stands for: a node list stands for the string value of
its first node. -/
def Value.asString : Value → String
  | Value.string s => s
  | Value.nodeSet [] => ""
  | Value.nodeSet (n :: _) => stringValue n

/-- Modelled from the spec: the string an expression yields in a context. -/
def evalString : StringForm → StringExpr
  | StringForm.literal s => fun _ => Except.ok s
  | StringForm.count selector => countOf (evalNodeSet selector)
  | StringForm.position => fun ctx => Except.ok (toString ctx.position)
  | StringForm.last => fun ctx => Except.ok (toString ctx.nodeList.length)
  | StringForm.name => fun ctx => Except.ok ctx.current.nodeName
  | StringForm.variableReference name => fun ctx => do
      let v ← lookupVariable ctx name
      pure v.asString
  | StringForm.nodes selector => fun ctx => do
      let ns ← evalNodeSet selector ctx
      pure (Value.nodeSet ns).asString

/-- Modelled from the spec: the truth of a predicate in a context. -/
def evalBool : BoolForm → BoolExpr
  | BoolForm.true => fun _ => Except.ok true
  | BoolForm.false => fun _ => Except.ok false
  | BoolForm.not b => fun ctx => do
      let r ← evalBool b ctx
      pure (!r)
  | BoolForm.equal a b => fun ctx => do
      let x ← evalString a ctx
      let y ← evalString b ctx
      pure (x == y)
  | BoolForm.nonEmpty selector => fun ctx => do
      let ns ← evalNodeSet selector ctx
      pure (!ns.isEmpty)
  | BoolForm.nonEmptyString s => fun ctx => do
      let x ← evalString s ctx
      pure (x != "")

/-- Modelled from the spec: a text without the white space at its two ends. -/
def trimSpaces (cs : List Char) : List Char :=
  (skipSpaces (skipSpaces cs).reverse).reverse

/-- Modelled from the spec: whether a text is a name: not empty, made of name characters, and not
beginning with a digit, a hyphen or a full stop. -/
def isName : List Char → Bool
  | [] => false
  | c :: cs => (c.isAlpha || c == '_' || 127 < c.toNat) && cs.all isNameChar

/-- Modelled from the spec: the node test a text denotes. -/
def parseNodeTest (cs : List Char) : Except EngineError NodeTest :=
  if cs == "node()".toList then Except.ok NodeTest.anyNode
  else if cs == "text()".toList then Except.ok NodeTest.text
  else if cs == "comment()".toList then Except.ok NodeTest.comment
  else if cs == "processing-instruction()".toList then Except.ok NodeTest.processingInstruction
  else if cs == ['*'] then Except.ok NodeTest.anyElement
  else if isName cs then Except.ok (NodeTest.element (String.mk cs))
  else Except.error (EngineError.compileError ("malformed node test: " ++ String.mk cs))

/-- Modelled from the spec: the selector a text denotes; a text outside the
supported selectors is a compile error. -/
def parseNodeSet (text : List Char) : Except EngineError NodeSetForm :=
  match trimSpaces text with
  | ['/'] => Except.ok NodeSetForm.root
  | ['.'] => Except.ok NodeSetForm.self
  | '/' :: '/' :: cs => do
    let t ← parseNodeTest cs
    pure (NodeSetForm.descendantsOfRoot t)
  | '.' :: '/' :: '/' :: cs => do
    let t ← parseNodeTest cs
    pure (NodeSetForm.descendantsOfSelf t)
  | ['@', '*'] => Except.ok (NodeSetForm.attributes none)
  | '@' :: cs =>
    if isName cs then Except.ok (NodeSetForm.attributes (some (String.mk cs)))
    else Except.error (EngineError.compileError ("malformed selector: " ++ String.mk text))
  | cs => do
    let t ← parseNodeTest cs
    pure (NodeSetForm.children t)

/-- Modelled from the spec: the content of a text that is one quoted literal. -/
def quotedLiteral (cs : List Char) : Option (List Char) :=
  match readQuoted cs with
  | some (body, []) => some body
  | _ => none

/-- Modelled from the spec: the argument of a call of the function `name` that makes up a whole
text. -/
def callArgument (name : String) (cs : List Char) : Option (List Char) :=
  match stripStart (name.toList ++ ['(']) cs with
  | some rest =>
    match rest.reverse with
    | ')' :: inner => some inner.reverse
    | _ => none
  | none => none

/-- Modelled from the spec: the string expression a text denotes. -/
def parseString (text : List Char) : Except EngineError StringForm :=
  let cs := trimSpaces text
  match quotedLiteral cs with
  | some body => Except.ok (StringForm.literal (String.mk body))
  | none =>
    match callArgument "count" cs with
    | some inner => do
      let selector ← parseNodeSet inner
      pure (StringForm.count selector)
    | none =>
      if cs == "position()".toList then Except.ok StringForm.position
      else if cs == "last()".toList then Except.ok StringForm.last
      else if cs == "name()".toList then Except.ok StringForm.name
      else
        match cs with
        | '$' :: name =>
          if isName name then Except.ok (StringForm.variableReference (String.mk name))
          else Except.error (EngineError.compileError ("malformed expression: " ++ String.mk cs))
        | _ => do
          let selector ← parseNodeSet cs
          pure (StringForm.nodes selector)

/-- Modelled from the spec: the predicate a text denotes; `fuel` bounds the
nesting of `not`. -/
def parseBool : Nat → List Char → Except EngineError BoolForm
  | 0, _ => Except.error (EngineError.compileError "predicate too deep")
  | fuel + 1, text =>
    let cs := trimSpaces text
    if cs == "true()".toList then Except.ok BoolForm.true
    else if cs == "false()".toList then Except.ok BoolForm.false
    else
      match callArgument "not" cs with
      | some inner => do
        let b ← parseBool fuel inner
        pure (BoolForm.not b)
      | none =>
        match splitAtFirst ['='] cs with
        | some (left, right) => do
          let a ← parseString left
          let b ← parseString right
          pure (BoolForm.equal a b)
        | none =>
          match parseNodeSet cs with
          | Except.ok selector => Except.ok (BoolForm.nonEmpty selector)
          | Except.error _ => do
            let s ← parseString cs
            pure (BoolForm.nonEmptyString s)

/-! #### The stylesheet compiler -/

/-- Modelled from the spec: the pieces of a text between the occurrences of a separator. -/
def splitOnChar (sep : Char) : List Char → List (List Char)
  | [] => [[]]
  | c :: cs =>
    if c == sep then [] :: splitOnChar sep cs
    else
      match splitOnChar sep cs with
      | [] => [[c]]
      | piece :: pieces => (c :: piece) :: pieces

/-- Modelled from the spec: the pattern one alternative of a `match` attribute
denotes, with the priority computed from its specificity, in halves: one half
for the root, zero for a name, minus one half for a test of the kind of node
only.  Any other text is a malformed pattern, a compile error. -/
def parsePattern (text : List Char) : Except EngineError Pattern :=
  match trimSpaces text with
  | ['/'] => Except.ok rootPattern
  | ['@', '*'] =>
    Except.ok { test := fun n =>
                  match n with
                  | Node.attribute _ _ => true
                  | _ => false,
                specificity := -1 }
  | '@' :: cs =>
    if isName cs then
      Except.ok { test := fun n =>
                    match n with
                    | Node.attribute k _ => k == String.mk cs
                    | _ => false,
                  specificity := 0 }
    else Except.error (EngineError.compileError ("malformed match pattern: " ++ String.mk text))
  | cs =>
    match parseNodeTest cs with
    | Except.ok NodeTest.anyElement => Except.ok anyElementPattern
    | Except.ok (NodeTest.element name) => Except.ok (elementPattern name)
    | Except.ok test => Except.ok { test := test.accepts, specificity := -1 }
    | Except.error _ =>
      Except.error (EngineError.compileError ("malformed match pattern: " ++ String.mk text))

/-- Modelled from the spec: the patterns of the alternatives of a `match` attribute, in order. -/
def parsePatterns (text : List Char) : Except EngineError (List Pattern) :=
  (splitOnChar '|' text).mapM parsePattern

/-- Modelled from the spec: the number a run of decimal digits denotes. -/
def digitsValue : List Char → Nat → Option Nat
  | [], acc => some acc
  | c :: cs, acc => if c.isDigit then digitsValue cs (acc * 10 + (c.toNat - 48)) else none

/-- Modelled from the spec: an explicit priority, in halves: a decimal number
of whole or half units. -/
def parsePriority (text : List Char) : Except EngineError Int :=
  let cs := trimSpaces text
  let negative := cs.head? == some '-'
  let digits := if negative then cs.drop 1 else cs
  let parts := spanChars Char.isDigit digits
  let halves : Option Nat :=
    if parts.1.isEmpty then none
    else
      match digitsValue parts.1 0 with
      | none => none
      | some whole =>
        if parts.2 == [] || parts.2 == ['.'] || parts.2 == ['.', '0'] then some (2 * whole)
        else if parts.2 == ['.', '5'] then some (2 * whole + 1)
        else none
  match halves with
  | some h => Except.ok (if negative then -(h : Int) else (h : Int))
  | none => Except.error (EngineError.compileError ("unsupported priority: " ++ String.mk text))

/-- Modelled from the spec: whether a stylesheet name is the instruction `local` under the prefix `x`
of the stylesheet namespace. -/
def isInstruction (x : String) (name : String) (localName : String) : Bool :=
  name == x ++ ":" ++ localName

/-- Modelled from the spec: the attribute an instruction cannot do without. -/
def requiredAttribute (attrs : List (String × String)) (instruction key : String) :
    Except EngineError String :=
  match attrs.lookup key with
  | some v => Except.ok v
  | none => Except.error (EngineError.compileError (instruction ++ " without " ++ key))

/-- Modelled from the spec: the `sort` child of an instruction, if it has
one. -/
def compileSort (x : String) : List Node → Except EngineError (Option SortSpec)
  | [] => Except.ok none
  | Node.element name attrs _ :: rest =>
    if isInstruction x name "sort" then do
      let key ← parseString ((attrs.lookup "select").getD ".").toList
      let dataType ← match attrs.lookup "data-type" with
        | none => Except.ok SortDataType.text
        | some "text" => Except.ok SortDataType.text
        | some "number" => Except.ok SortDataType.number
        | some other => Except.error (EngineError.compileError ("unknown data type: " ++ other))
      let descending ← match attrs.lookup "order" with
        | none => Except.ok false
        | some "ascending" => Except.ok false
        | some "descending" => Except.ok true
        | some other => Except.error (EngineError.compileError ("unknown order: " ++ other))
      pure (some { key := evalString key, dataType := dataType, descending := descending })
    else compileSort x rest
  | _ :: rest => compileSort x rest

/-- Modelled from the spec: the value a variable is bound to: the node list of
a selector, or else the string of an expression. -/
def compileValue (text : String) : Except EngineError ValueExpr :=
  match parseNodeSet text.toList with
  | Except.ok selector => Except.ok (fun ctx => do
      let ns ← evalNodeSet selector ctx
      pure (Value.nodeSet ns))
  | Except.error _ => do
    let e ← parseString text.toList
    pure (fun ctx => do
      let s ← evalString e ctx
      pure (Value.string s))

/-- Modelled from the spec: the attributes of a literal result element: those of the stylesheet
element, namespace declarations left out, each with its literal value. -/
def literalAttributes (attrs : List (String × String)) : List (String × StringExpr) :=
  (attrs.filter (fun kv => (stripStart "xmlns".toList kv.1.toList).isNone)).map
    (fun kv => (kv.1, fun _ => Except.ok kv.2))

mutual
/-- Modelled from the spec: the output instructions one node of a template body
compiles to (section 3): text and literal result elements compile to
themselves, the elements of the stylesheet namespace to their instruction; an
element of that namespace that is no known instruction is a compile error. -/
def compileNode (x : String) : Node → Except EngineError (List Instruction)
  | Node.document cs => compileNodes x cs
  | Node.text s =>
    if s.toList.all isSpace then Except.ok [] else Except.ok [Instruction.literalText s]
  | Node.comment _ => Except.ok []
  | Node.processingInstruction _ _ => Except.ok []
  | Node.attribute _ _ => Except.ok []
  | Node.element name attrs cs =>
    if isInstruction x name "value-of" then do
      let select ← requiredAttribute attrs name "select"
      let e ← parseString select.toList
      pure [Instruction.valueOf (evalString e)]
    else if isInstruction x name "text" then
      Except.ok [Instruction.literalText (stringValueList cs)]
    else if isInstruction x name "apply-templates" then do
      let select ← match attrs.lookup "select" with
        | some text => do
          let selector ← parseNodeSet text.toList
          pure (some (evalNodeSet selector))
        | none => Except.ok none
      let sort ← compileSort x cs
      pure [Instruction.applyTemplates select (attrs.lookup "mode") sort]
    else if isInstruction x name "for-each" then do
      let select ← requiredAttribute attrs name "select"
      let selector ← parseNodeSet select.toList
      let sort ← compileSort x cs
      let body ← compileNodes x cs
      pure [Instruction.forEach (evalNodeSet selector) sort body]
    else if isInstruction x name "sort" then Except.ok []
    else if isInstruction x name "choose" then do
      let branches ← compileBranches x cs
      pure [Instruction.choose branches.1 branches.2]
    else if isInstruction x name "call-template" then do
      let target ← requiredAttribute attrs name "name"
      pure [Instruction.callTemplate target]
    else if isInstruction x name "variable" then do
      let variableName ← requiredAttribute attrs name "name"
      let select ← requiredAttribute attrs name "select"
      let value ← compileValue select
      pure [Instruction.variableBinding variableName value]
    else if (stripStart (x ++ ":").toList name.toList).isSome then
      Except.error (EngineError.compileError ("unknown instruction: " ++ name))
    else do
      let body ← compileNodes x cs
      pure [Instruction.literalElement name (literalAttributes attrs) body]
/-- Modelled from the spec: the output instructions a sequence of nodes compiles to, in order. -/
def compileNodes (x : String) : List Node → Except EngineError (List Instruction)
  | [] => Except.ok []
  | n :: rest => do
    let first ← compileNode x n
    let more ← compileNodes x rest
    pure (first ++ more)
/-- Modelled from the spec: the branches of a `choose`: its `when` children in order, each with its
predicate and body, and the body of its `otherwise` child. -/
def compileBranches (x : String) :
    List Node → Except EngineError (List (BoolExpr × List Instruction) × List Instruction)
  | [] => Except.ok ([], [])
  | Node.element name attrs cs :: rest =>
    if isInstruction x name "when" then do
      let test ← requiredAttribute attrs name "test"
      let predicate ← parseBool (test.length + 1) test.toList
      let body ← compileNodes x cs
      let more ← compileBranches x rest
      pure ((evalBool predicate, body) :: more.1, more.2)
    else if isInstruction x name "otherwise" then do
      let body ← compileNodes x cs
      let more ← compileBranches x rest
      pure (more.1, body)
    else Except.error (EngineError.compileError ("unexpected in choose: " ++ name))
  | Node.document _ :: rest => compileBranches x rest
  | Node.text _ :: rest => compileBranches x rest
  | Node.comment _ :: rest => compileBranches x rest
  | Node.processingInstruction _ _ :: rest => compileBranches x rest
  | Node.attribute _ _ :: rest => compileBranches x rest
end

/-- Modelled from the spec: the declarations at the top of a stylesheet, added
in declaration order to the stylesheet compiled so far: templates, one for
each alternative of the match pattern, named templates, global variables and
the declared output. -/
def compileTopLevel (x : String) : List Node → Stylesheet → Except EngineError Stylesheet
  | [], ss => Except.ok ss
  | Node.element name attrs cs :: rest, ss =>
    if isInstruction x name "template" then do
      let body ← compileNodes x cs
      let priority ← match attrs.lookup "priority" with
        | some text => do
          let p ← parsePriority text.toList
          pure (some p)
        | none => Except.ok none
      let patterns ← match attrs.lookup "match" with
        | some text => parsePatterns text.toList
        | none => Except.ok []
      let named : List (String × List Instruction) :=
        match attrs.lookup "name" with
        | some n => [(n, body)]
        | none => []
      if patterns.isEmpty && named.isEmpty then
        Except.error (EngineError.compileError "template without match or name")
      else
        compileTopLevel x rest
          { templates := ss.templates ++ patterns.map (fun p =>
              { pattern := p, priority := priority, mode := attrs.lookup "mode", body := body }),
            namedTemplates := ss.namedTemplates ++ named,
            globals := ss.globals, outputMethod := ss.outputMethod, encoding := ss.encoding }
    else if isInstruction x name "output" then do
      let method ← match attrs.lookup "method" with
        | none => Except.ok ss.outputMethod
        | some "xml" => Except.ok OutputMethod.xml
        | some "html" => Except.ok OutputMethod.html
        | some "text" => Except.ok OutputMethod.text
        | some other => Except.error (EngineError.compileError ("unknown method: " ++ other))
      compileTopLevel x rest
        { templates := ss.templates, namedTemplates := ss.namedTemplates,
          globals := ss.globals, outputMethod := method,
          encoding := (attrs.lookup "encoding").getD ss.encoding }
    else if isInstruction x name "variable" || isInstruction x name "param" then do
      let variableName ← requiredAttribute attrs name "name"
      let select ← requiredAttribute attrs name "select"
      let value ← compileValue select
      compileTopLevel x rest
        { templates := ss.templates, namedTemplates := ss.namedTemplates,
          globals := ss.globals ++ [(variableName, value)],
          outputMethod := ss.outputMethod, encoding := ss.encoding }
    else Except.error (EngineError.compileError ("unknown declaration: " ++ name))
  | Node.text s :: rest, ss =>
    if s.toList.all isSpace then compileTopLevel x rest ss
    else Except.error (EngineError.compileError "text at the top of a stylesheet")
  | _ :: rest, ss => compileTopLevel x rest ss

/-- Modelled from the spec: the namespace of the stylesheet language. -/
def stylesheetNamespace : String := "http://www.w3.org/1999/XSL/Transform"

/-- Modelled from the spec: the prefix an element binds to the stylesheet namespace, if it binds one. -/
def prefixOfStylesheet : List (String × String) → Option String
  | [] => none
  | (k, v) :: rest =>
    match stripStart "xmlns:".toList k.toList with
    | some p => if v == stylesheetNamespace then some (String.mk p) else prefixOfStylesheet rest
    | none => prefixOfStylesheet rest

/-- Modelled from the spec: the stylesheet compiler `compile(xsltText)` of
section 6: the text is read as XML, its root has to be the `stylesheet` or
`transform` element of the stylesheet namespace, and its declarations are
compiled in order; the output defaults to XML in UTF-8.  Malformed text is a
parse error, an invalid construct a compile error, both before any
transformation. -/
def compileStylesheet (xsltText : String) : Except EngineError Stylesheet := do
  let doc ← readXml (fun _ => Except.ok ()) xsltText
  match doc.tree with
  | Node.document top =>
    match top.filter anyElementPattern.test with
    | [Node.element name attrs cs] =>
      match prefixOfStylesheet attrs with
      | some x =>
        if isInstruction x name "stylesheet" || isInstruction x name "transform" then
          compileTopLevel x cs
            { templates := [], namedTemplates := [], globals := [],
              outputMethod := OutputMethod.xml, encoding := "UTF-8" }
        else Except.error (EngineError.compileError ("not a stylesheet: " ++ name))
      | none => Except.error (EngineError.compileError "the stylesheet namespace is not declared")
    | _ => Except.error (EngineError.compileError "not a stylesheet")
  | _ => Except.error (EngineError.compileError "not a stylesheet")

/-! #### The serializer -/

/-- Modelled from the spec: character data written as XML text: the markup
characters are escaped. -/
def escapeText : List Char → List Char
  | [] => []
  | '&' :: cs => "&amp;".toList ++ escapeText cs
  | '<' :: cs => "&lt;".toList ++ escapeText cs
  | '>' :: cs => "&gt;".toList ++ escapeText cs
  | c :: cs => c :: escapeText cs

/-- Modelled from the spec: an attribute value written between double quotes. -/
def escapeAttribute : List Char → List Char
  | [] => []
  | '&' :: cs => "&amp;".toList ++ escapeAttribute cs
  | '<' :: cs => "&lt;".toList ++ escapeAttribute cs
  | c :: cs =>
    if c == Char.ofNat 34 then "&quot;".toList ++ escapeAttribute cs
    else c :: escapeAttribute cs

/-- Modelled from the spec: the attributes of a start tag, each after a blank. -/
def serializeAttributes : List (String × String) → String
  | [] => ""
  | (k, v) :: rest =>
    " " ++ k ++ "=\"" ++ String.mk (escapeAttribute v.toList) ++ "\"" ++ serializeAttributes rest

mutual
/-- Modelled from the spec: a node of the result tree rendered as markup
(section 4.4).  An element without children is written as an empty-element tag
under the XML method and with both tags under the HTML method. -/
def serializeNode (html : Bool) : Node → String
  | Node.document cs => serializeNodes html cs
  | Node.element name attrs cs =>
    if cs.isEmpty && !html then "<" ++ name ++ serializeAttributes attrs ++ "/>"
    else "<" ++ name ++ serializeAttributes attrs ++ ">" ++ serializeNodes html cs
      ++ "</" ++ name ++ ">"
  | Node.text s => String.mk (escapeText s.toList)
  | Node.comment s => "<!--" ++ s ++ "-->"
  | Node.processingInstruction t s => "<?" ++ t ++ " " ++ s ++ "?>"
  | Node.attribute _ v => String.mk (escapeText v.toList)
/-- Modelled from the spec: the nodes of a result tree rendered in document order. -/
def serializeNodes (html : Bool) : List Node → String
  | [] => ""
  | n :: rest => serializeNode html n ++ serializeNodes html rest
end

/-- Modelled from the spec: the number of characters a declared encoding can
encode, counted from the first; none for an encoding that is not known. -/
def encodingLimit (encoding : String) : Option Nat :=
  if encoding == "UTF-8" || encoding == "utf-8" || encoding == "UTF-16" || encoding == "utf-16"
  then some 1114112
  else if encoding == "US-ASCII" || encoding == "us-ascii" || encoding == "ASCII" then some 128
  else if encoding == "ISO-8859-1" || encoding == "iso-8859-1" then some 256
  else none

/-- Modelled from the spec: the serializer `serialize(ResultTree, outputMethod,
encoding)` of section 6: markup under the XML and HTML methods, the text alone
under the text method; content that the declared encoding cannot encode is a
serialization error. -/
def serializeResult (result : List Node) (method : OutputMethod) (encoding : String) :
    Except EngineError String :=
  let output : String :=
    match method with
    | OutputMethod.xml => serializeNodes false result
    | OutputMethod.html => serializeNodes true result
    | OutputMethod.text => stringValueList result
  match encodingLimit encoding with
  | none => Except.error (EngineError.serializationError ("unknown encoding: " ++ encoding))
  | some limit =>
    if output.toList.all (fun c => c.toNat < limit) then Except.ok output
    else Except.error (EngineError.serializationError ("unencodable content for " ++ encoding))

/-- Modelled from the spec: what the collaborators on text take from their
surroundings: the reading of the text of a subset, the fetching of an external
subset and of included content, the resolution from a subset, and the
conformance to a DTD. -/
structure Resources (Dtd : Type) where
  parseSubset : String → Except EngineError Dtd
  fetchSubset : String → Except EngineError Dtd
  applySubset : Dtd → Node → Node
  fetchInclude : String → Except EngineError (List Node)
  conforms : Option Dtd → Option Dtd → Node → Bool

/-- Modelled from the spec: the collaborators of the engine on text: the
reader, the stylesheet compiler and the serializer defined above, over given
resources. -/
def textCollaborators {Dtd : Type} (r : Resources Dtd) : Collaborators Dtd where
  readDocument := readXml r.parseSubset
  fetchSubset := r.fetchSubset
  applySubset := r.applySubset
  includeReference := xincludeReference
  fetchInclude := r.fetchInclude
  conforms := r.conforms
  compile := compileStylesheet
  serialize := serializeResult

/-- Resources of a surrounding that holds nothing: no subset can be read or
fetched, no content can be included, and a tree conforms exactly when no DTD
is declared for it. -/
def noResources : Resources Unit where
  parseSubset := fun _ => Except.error (EngineError.parseError "subsets are not supported")
  fetchSubset := fun reference => Except.error (EngineError.resourceFetchError reference)
  applySubset := fun _ tree => tree
  fetchInclude := fun reference => Except.error (EngineError.resourceFetchError reference)
  conforms := fun internal external _ => internal.isNone && external.isNone

/-- Modelled from the spec: the only template of the stylesheet of the scenario, as text. -/
def scenarioTemplateText : String :=
  "<xsl:template match=\"/\"><out><xsl:value-of select=\"count(//item)\"/></out></xsl:template>"

/-- Modelled from the spec: the stylesheet of the scenario as text: the stylesheet element of the
stylesheet namespace around its only template. -/
def scenarioStylesheetText : String :=
  "<xsl:stylesheet version=\"1.0\" xmlns:xsl=\"http://www.w3.org/1999/XSL/Transform\">"
    ++ scenarioTemplateText ++ "</xsl:stylesheet>"

/-- Modelled from the spec: the source of the scenario as text. -/
def scenarioSourceText : String := "<root><item/><item/></root>"

/-! ## Theorems about the binding -/

/-- Unfolding of the block when all five conversions succeed. -/
theorem block_of_converted {SEXP World : Type} (h : Host SEXP World)
    (p1 p2 p3 p4 p5 : SEXP) (s x : String) (a b c : Bool) (st : CallState World)
    (h1 : h.asString p1 = Except.ok s) (h2 : h.asString p2 = Except.ok x)
    (h3 : h.asBool p3 = Except.ok a) (h4 : h.asBool p4 = Except.ok b)
    (h5 : h.asBool p5 = Except.ok c) :
    xslt_xslt_transform_block h p1 p2 p3 p4 p5 st =
      Cpp.withRNGScope h (fun s0 =>
        Cpp.bind (Cpp.callNative h s x a b c) (fun r =>
          Cpp.bind (Cpp.emit Event.resultAssigned) (fun _ =>
            Cpp.bind (Cpp.emit Event.returnResult) (fun _ => Cpp.pure (h.wrap r))))
          { world := s0.world,
            trace := s0.trace ++ [Event.converted 1, Event.converted 2, Event.converted 3,
              Event.converted 4, Event.converted 5] }) st := by
  simp [xslt_xslt_transform_block, Cpp.withRNGScope, Cpp.inputParameter, Bind.bind, Cpp.bind,
    h1, h2, h3, h4, h5]

/-- The call when all five conversions succeed and the native function returns. -/
theorem call_of_native_ok {SEXP World : Type} (h : Host SEXP World)
    (p1 p2 p3 p4 p5 : SEXP) (s x : String) (a b c : Bool) (w w1 : World) (r : String)
    (h1 : h.asString p1 = Except.ok s) (h2 : h.asString p2 = Except.ok x)
    (h3 : h.asBool p3 = Except.ok a) (h4 : h.asBool p4 = Except.ok b)
    (h5 : h.asBool p5 = Except.ok c)
    (hn : h.xslt_transform s x a b c (h.getRNGstate w) = (Except.ok r, w1)) :
    xslt_xslt_transform h p1 p2 p3 p4 p5 w =
      { outcome := Outcome.returned (h.wrap r), world := h.putRNGstate w1,
        trace := [Event.rngScopeOpen, Event.converted 1, Event.converted 2, Event.converted 3,
          Event.converted 4, Event.converted 5, Event.nativeCall s x a b c,
          Event.resultAssigned, Event.returnResult, Event.rngScopeClose] } := by
  simp [xslt_xslt_transform, block_of_converted h p1 p2 p3 p4 p5 s x a b c _ h1 h2 h3 h4 h5,
    Cpp.withRNGScope, Cpp.bind, Cpp.callNative, Cpp.emit, Cpp.pure, END_RCPP, hn]

/-- The call when all five conversions succeed and the native function throws. -/
theorem call_of_native_error {SEXP World : Type} (h : Host SEXP World)
    (p1 p2 p3 p4 p5 : SEXP) (s x : String) (a b c : Bool) (w w1 : World) (e : CppException)
    (h1 : h.asString p1 = Except.ok s) (h2 : h.asString p2 = Except.ok x)
    (h3 : h.asBool p3 = Except.ok a) (h4 : h.asBool p4 = Except.ok b)
    (h5 : h.asBool p5 = Except.ok c)
    (hn : h.xslt_transform s x a b c (h.getRNGstate w) = (Except.error e, w1)) :
    xslt_xslt_transform h p1 p2 p3 p4 p5 w =
      { outcome := Outcome.hostError (forwardedMessage e),
        world := h.putRNGstate w1,
        trace := [Event.rngScopeOpen, Event.converted 1, Event.converted 2, Event.converted 3,
          Event.converted 4, Event.converted 5, Event.nativeCall s x a b c,
          Event.rngScopeClose, Event.errorRaised] } := by
  simp [xslt_xslt_transform, block_of_converted h p1 p2 p3 p4 p5 s x a b c _ h1 h2 h3 h4 h5,
    Cpp.withRNGScope, Cpp.bind, Cpp.callNative, Cpp.emit, Cpp.pure, END_RCPP, hn]

/-- The call when one of the five conversions throws: a host error is raised,
the session only sees the scope of the random number generator, and the trace
holds conversions only. -/
theorem call_of_conversion_error {SEXP World : Type} (h : Host SEXP World)
    (p1 p2 p3 p4 p5 : SEXP) (w : World)
    (hfail : (∃ e, h.asString p1 = Except.error e) ∨ (∃ e, h.asString p2 = Except.error e) ∨
      (∃ e, h.asBool p3 = Except.error e) ∨ (∃ e, h.asBool p4 = Except.error e) ∨
      (∃ e, h.asBool p5 = Except.error e)) :
    ∃ (m : String) (k : Nat), k < 5 ∧
      xslt_xslt_transform h p1 p2 p3 p4 p5 w =
        { outcome := Outcome.hostError m, world := h.putRNGstate (h.getRNGstate w),
          trace := Event.rngScopeOpen :: ((List.range k).map (fun i => Event.converted (i + 1)))
            ++ [Event.rngScopeClose, Event.errorRaised] } := by
  have run : ∀ (e : CppException) (k : Nat),
      xslt_xslt_transform_block h p1 p2 p3 p4 p5 { world := w, trace := [] } =
        (Except.error e,
          { world := h.putRNGstate (h.getRNGstate w),
            trace := Event.rngScopeOpen ::
              ((List.range k).map (fun i => Event.converted (i + 1))) ++
                [Event.rngScopeClose] }) →
      xslt_xslt_transform h p1 p2 p3 p4 p5 w =
        { outcome := Outcome.hostError (forwardedMessage e),
          world := h.putRNGstate (h.getRNGstate w),
          trace := Event.rngScopeOpen :: ((List.range k).map (fun i => Event.converted (i + 1)))
            ++ [Event.rngScopeClose, Event.errorRaised] } := by
    intro e k hb
    simp [xslt_xslt_transform, hb, END_RCPP]
  rcases hA : h.asString p1 with e1 | s
  · exact ⟨_, 0, by decide, run e1 0 (by
      simp [xslt_xslt_transform_block, Cpp.withRNGScope, Cpp.inputParameter, Bind.bind,
        Cpp.bind, hA])⟩
  rcases hB : h.asString p2 with e2 | x
  · exact ⟨_, 1, by decide, run e2 1 (by
      simp [xslt_xslt_transform_block, Cpp.withRNGScope, Cpp.inputParameter, Bind.bind,
        Cpp.bind, hA, hB, List.range_succ])⟩
  rcases hC : h.asBool p3 with e3 | a
  · exact ⟨_, 2, by decide, run e3 2 (by
      simp [xslt_xslt_transform_block, Cpp.withRNGScope, Cpp.inputParameter, Bind.bind,
        Cpp.bind, hA, hB, hC, List.range_succ])⟩
  rcases hD : h.asBool p4 with e4 | b
  · exact ⟨_, 3, by decide, run e4 3 (by
      simp [xslt_xslt_transform_block, Cpp.withRNGScope, Cpp.inputParameter, Bind.bind,
        Cpp.bind, hA, hB, hC, hD, List.range_succ])⟩
  rcases hE : h.asBool p5 with e5 | c
  · exact ⟨_, 4, by decide, run e5 4 (by
      simp [xslt_xslt_transform_block, Cpp.withRNGScope, Cpp.inputParameter, Bind.bind,
        Cpp.bind, hA, hB, hC, hD, hE, List.range_succ])⟩
  simp [hA, hB, hC, hD, hE] at hfail

/-- Either all five conversions succeed or one of them throws. -/
theorem conversions_cases {SEXP World : Type} (h : Host SEXP World) (p1 p2 p3 p4 p5 : SEXP) :
    (∃ s x a b c, h.asString p1 = Except.ok s ∧ h.asString p2 = Except.ok x ∧
      h.asBool p3 = Except.ok a ∧ h.asBool p4 = Except.ok b ∧ h.asBool p5 = Except.ok c) ∨
    ((∃ e, h.asString p1 = Except.error e) ∨ (∃ e, h.asString p2 = Except.error e) ∨
      (∃ e, h.asBool p3 = Except.error e) ∨ (∃ e, h.asBool p4 = Except.error e) ∨
      (∃ e, h.asBool p5 = Except.error e)) := by
  rcases hA : h.asString p1 with e1 | s
  · exact Or.inr (Or.inl ⟨e1, rfl⟩)
  rcases hB : h.asString p2 with e2 | x
  · exact Or.inr (Or.inr (Or.inl ⟨e2, rfl⟩))
  rcases hC : h.asBool p3 with e3 | a
  · exact Or.inr (Or.inr (Or.inr (Or.inl ⟨e3, rfl⟩)))
  rcases hD : h.asBool p4 with e4 | b
  · exact Or.inr (Or.inr (Or.inr (Or.inr (Or.inl ⟨e4, rfl⟩))))
  rcases hE : h.asBool p5 with e5 | c
  · exact Or.inr (Or.inr (Or.inr (Or.inr (Or.inr ⟨e5, rfl⟩))))
  exact Or.inl ⟨s, x, a, b, c, rfl, rfl, rfl, rfl, rfl⟩

/-- A trace made of the scope events and conversions holds no native call. -/
theorem nativeCalls_conversions (k : Nat) (tail : List Event)
    (htail : nativeCalls tail = 0) :
    nativeCalls (Event.rngScopeOpen :: ((List.range k).map (fun i => Event.converted (i + 1)))
      ++ tail) = 0 := by
  have aux : ∀ (l : List Nat), nativeCalls ((l.map (fun i => Event.converted (i + 1))) ++ tail)
      = 0 := by
    intro l
    induction l with
    | nil => simpa using htail
    | cons a l ih => simpa [nativeCalls] using ih
  simpa [nativeCalls] using aux (List.range k)

/-- C1. When the five host arguments convert to (s, x, a, b, c) and the native
function called with them returns r, the binding returns the host string
wrapping r; the native function is entered with exactly (s, x, a, b, c), in
the declared order, and the whole call is the listed sequence of steps. -/
theorem C1_forwards_arguments_and_result {SEXP World : Type} (h : Host SEXP World)
    (p1 p2 p3 p4 p5 : SEXP) (s x : String) (a b c : Bool) (w w1 : World) (r : String)
    (h1 : h.asString p1 = Except.ok s) (h2 : h.asString p2 = Except.ok x)
    (h3 : h.asBool p3 = Except.ok a) (h4 : h.asBool p4 = Except.ok b)
    (h5 : h.asBool p5 = Except.ok c)
    (hn : h.xslt_transform s x a b c (h.getRNGstate w) = (Except.ok r, w1)) :
    (xslt_xslt_transform h p1 p2 p3 p4 p5 w).outcome = Outcome.returned (h.wrap r) ∧
    (xslt_xslt_transform h p1 p2 p3 p4 p5 w).trace =
      [Event.rngScopeOpen, Event.converted 1, Event.converted 2, Event.converted 3,
        Event.converted 4, Event.converted 5, Event.nativeCall s x a b c,
        Event.resultAssigned, Event.returnResult, Event.rngScopeClose] := by
  rw [call_of_native_ok h p1 p2 p3 p4 p5 s x a b c w w1 r h1 h2 h3 h4 h5 hn]
  exact ⟨rfl, rfl⟩

/-- C1 at a concrete call: stylesheet "S", document "D", flags true, false, true. -/
theorem C1_forwards_arguments_and_result_witness :
    (xslt_xslt_transform sampleHost (RValue.character ["S"]) (RValue.character ["D"])
        (RValue.logical [true]) (RValue.logical [false]) (RValue.logical [true]) 0).outcome
      = Outcome.returned (RValue.character ["S|D|truefalsetrue"]) ∧
    (xslt_xslt_transform sampleHost (RValue.character ["S"]) (RValue.character ["D"])
        (RValue.logical [true]) (RValue.logical [false]) (RValue.logical [true]) 0).trace
      = [Event.rngScopeOpen, Event.converted 1, Event.converted 2, Event.converted 3,
        Event.converted 4, Event.converted 5, Event.nativeCall "S" "D" true false true,
        Event.resultAssigned, Event.returnResult, Event.rngScopeClose] :=
  C1_forwards_arguments_and_result sampleHost (RValue.character ["S"]) (RValue.character ["D"])
    (RValue.logical [true]) (RValue.logical [false]) (RValue.logical [true])
    "S" "D" true false true 0 1 "S|D|truefalsetrue" rfl rfl rfl rfl rfl rfl

/-- C2. Complete-or-nothing: when the five arguments convert and the native
function throws, the binding ends in a host error and not in a returned value;
neither the assignment to `__result` nor `return __result` is reached. -/
theorem C2_native_failure_is_failure {SEXP World : Type} (h : Host SEXP World)
    (p1 p2 p3 p4 p5 : SEXP) (s x : String) (a b c : Bool) (w w1 : World) (e : CppException)
    (h1 : h.asString p1 = Except.ok s) (h2 : h.asString p2 = Except.ok x)
    (h3 : h.asBool p3 = Except.ok a) (h4 : h.asBool p4 = Except.ok b)
    (h5 : h.asBool p5 = Except.ok c)
    (hn : h.xslt_transform s x a b c (h.getRNGstate w) = (Except.error e, w1)) :
    (∃ m, (xslt_xslt_transform h p1 p2 p3 p4 p5 w).outcome = Outcome.hostError m) ∧
    (∀ v, (xslt_xslt_transform h p1 p2 p3 p4 p5 w).outcome ≠ Outcome.returned v) ∧
    Event.resultAssigned ∉ (xslt_xslt_transform h p1 p2 p3 p4 p5 w).trace ∧
    Event.returnResult ∉ (xslt_xslt_transform h p1 p2 p3 p4 p5 w).trace := by
  rw [call_of_native_error h p1 p2 p3 p4 p5 s x a b c w w1 e h1 h2 h3 h4 h5 hn]
  refine ⟨⟨_, rfl⟩, ?_, ?_, ?_⟩
  · intro v hv
    cases hv
  · simp
  · simp

/-- C2 at a concrete call: the empty document makes the native function throw. -/
theorem C2_native_failure_is_failure_witness :
    (∃ m, (xslt_xslt_transform sampleHost (RValue.character ["S"]) (RValue.character [""])
        (RValue.logical [true]) (RValue.logical [false]) (RValue.logical [true]) 0).outcome
      = Outcome.hostError m) ∧
    (∀ v, (xslt_xslt_transform sampleHost (RValue.character ["S"]) (RValue.character [""])
        (RValue.logical [true]) (RValue.logical [false]) (RValue.logical [true]) 0).outcome
      ≠ Outcome.returned v) ∧
    Event.resultAssigned ∉ (xslt_xslt_transform sampleHost (RValue.character ["S"])
        (RValue.character [""]) (RValue.logical [true]) (RValue.logical [false])
        (RValue.logical [true]) 0).trace ∧
    Event.returnResult ∉ (xslt_xslt_transform sampleHost (RValue.character ["S"])
        (RValue.character [""]) (RValue.logical [true]) (RValue.logical [false])
        (RValue.logical [true]) 0).trace :=
  C2_native_failure_is_failure sampleHost (RValue.character ["S"]) (RValue.character [""])
    (RValue.logical [true]) (RValue.logical [false]) (RValue.logical [true])
    "S" "" true false true 0 1 (CppException.stdException "Document is empty")
    rfl rfl rfl rfl rfl rfl

/-- A call on the counting host is the call on the host itself, with the
counter advanced by the number of native calls recorded in the trace. -/
theorem call_countingHost {SEXP World : Type} (h : Host SEXP World)
    (p1 p2 p3 p4 p5 : SEXP) (w : World) (n : Nat) :
    xslt_xslt_transform (countingHost h) p1 p2 p3 p4 p5 (w, n) =
      { outcome := (xslt_xslt_transform h p1 p2 p3 p4 p5 w).outcome,
        world := ((xslt_xslt_transform h p1 p2 p3 p4 p5 w).world,
          n + nativeCalls (xslt_xslt_transform h p1 p2 p3 p4 p5 w).trace),
        trace := (xslt_xslt_transform h p1 p2 p3 p4 p5 w).trace } := by
  rcases hA : h.asString p1 with e1 | s
  · simp [xslt_xslt_transform, xslt_xslt_transform_block, Cpp.withRNGScope,
      Cpp.inputParameter, Bind.bind, Cpp.bind, END_RCPP, hA, countingHost, nativeCalls]
  rcases hB : h.asString p2 with e2 | x
  · simp [xslt_xslt_transform, xslt_xslt_transform_block, Cpp.withRNGScope,
      Cpp.inputParameter, Bind.bind, Cpp.bind, END_RCPP, hA, hB, countingHost, nativeCalls]
  rcases hC : h.asBool p3 with e3 | a
  · simp [xslt_xslt_transform, xslt_xslt_transform_block, Cpp.withRNGScope,
      Cpp.inputParameter, Bind.bind, Cpp.bind, END_RCPP, hA, hB, hC, countingHost, nativeCalls]
  rcases hD : h.asBool p4 with e4 | b
  · simp [xslt_xslt_transform, xslt_xslt_transform_block, Cpp.withRNGScope,
      Cpp.inputParameter, Bind.bind, Cpp.bind, END_RCPP, hA, hB, hC, hD, countingHost,
      nativeCalls]
  rcases hE : h.asBool p5 with e5 | c
  · simp [xslt_xslt_transform, xslt_xslt_transform_block, Cpp.withRNGScope,
      Cpp.inputParameter, Bind.bind, Cpp.bind, END_RCPP, hA, hB, hC, hD, hE, countingHost,
      nativeCalls]
  rcases hn : h.xslt_transform s x a b c (h.getRNGstate w) with ⟨r, w1⟩
  rcases r with e | r
  · rw [call_of_native_error h p1 p2 p3 p4 p5 s x a b c w w1 e hA hB hC hD hE hn,
      call_of_native_error (countingHost h) p1 p2 p3 p4 p5 s x a b c (w, n) (w1, n + 1) e
        hA hB hC hD hE (by simp [countingHost, hn])]
    simp [countingHost, nativeCalls]
  · rw [call_of_native_ok h p1 p2 p3 p4 p5 s x a b c w w1 r hA hB hC hD hE hn,
      call_of_native_ok (countingHost h) p1 p2 p3 p4 p5 s x a b c (w, n) (w1, n + 1) r
        hA hB hC hD hE (by simp [countingHost, hn])]
    simp [countingHost, nativeCalls]

/-- The trace of a call holds at most one native call, and exactly one when all
five arguments convert. -/
theorem nativeCalls_trace {SEXP World : Type} (h : Host SEXP World)
    (p1 p2 p3 p4 p5 : SEXP) (w : World) :
    nativeCalls (xslt_xslt_transform h p1 p2 p3 p4 p5 w).trace ≤ 1 ∧
    ((∃ s x a b c, h.asString p1 = Except.ok s ∧ h.asString p2 = Except.ok x ∧
        h.asBool p3 = Except.ok a ∧ h.asBool p4 = Except.ok b ∧ h.asBool p5 = Except.ok c) →
      nativeCalls (xslt_xslt_transform h p1 p2 p3 p4 p5 w).trace = 1) := by
  have once : (∃ s x a b c, h.asString p1 = Except.ok s ∧ h.asString p2 = Except.ok x ∧
        h.asBool p3 = Except.ok a ∧ h.asBool p4 = Except.ok b ∧ h.asBool p5 = Except.ok c) →
      nativeCalls (xslt_xslt_transform h p1 p2 p3 p4 p5 w).trace = 1 := by
    rintro ⟨s, x, a, b, c, h1, h2, h3, h4, h5⟩
    rcases hn : h.xslt_transform s x a b c (h.getRNGstate w) with ⟨r, w1⟩
    rcases r with e | r
    · rw [call_of_native_error h p1 p2 p3 p4 p5 s x a b c w w1 e h1 h2 h3 h4 h5 hn]
      rfl
    · rw [call_of_native_ok h p1 p2 p3 p4 p5 s x a b c w w1 r h1 h2 h3 h4 h5 hn]
      rfl
  refine ⟨?_, once⟩
  rcases conversions_cases h p1 p2 p3 p4 p5 with hall | hfail
  · exact le_of_eq (once hall)
  · obtain ⟨m, k, _, hcall⟩ := call_of_conversion_error h p1 p2 p3 p4 p5 w hfail
    rw [hcall]
    exact le_of_eq_of_le
      (nativeCalls_conversions k [Event.rngScopeClose, Event.errorRaised] rfl) (Nat.zero_le 1)

/-- C7. No internal retries: join to the session of any host a counter that
every application of the native function advances by one.  In every call of
the binding, started with the counter at n, the counter ends at n or at n + 1:
the native function is applied at most once, whether it throws or returns.
It ends at n + 1 when all five arguments convert: the native function is then
applied exactly once, also when that application throws.  The counter changes
nothing else: outcome and session are those of the call on the host itself.
The native calls recorded in the trace are as many as the applications. -/
theorem C7_native_invoked_at_most_once {SEXP World : Type} (h : Host SEXP World)
    (p1 p2 p3 p4 p5 : SEXP) (w : World) (n : Nat) :
    (xslt_xslt_transform (countingHost h) p1 p2 p3 p4 p5 (w, n)).world.2 ≤ n + 1 ∧
    ((∃ s x a b c, h.asString p1 = Except.ok s ∧ h.asString p2 = Except.ok x ∧
        h.asBool p3 = Except.ok a ∧ h.asBool p4 = Except.ok b ∧ h.asBool p5 = Except.ok c) →
      (xslt_xslt_transform (countingHost h) p1 p2 p3 p4 p5 (w, n)).world.2 = n + 1) ∧
    (xslt_xslt_transform (countingHost h) p1 p2 p3 p4 p5 (w, n)).outcome =
      (xslt_xslt_transform h p1 p2 p3 p4 p5 w).outcome ∧
    (xslt_xslt_transform (countingHost h) p1 p2 p3 p4 p5 (w, n)).world.1 =
      (xslt_xslt_transform h p1 p2 p3 p4 p5 w).world ∧
    (xslt_xslt_transform (countingHost h) p1 p2 p3 p4 p5 (w, n)).world.2 =
      n + nativeCalls (xslt_xslt_transform h p1 p2 p3 p4 p5 w).trace ∧
    nativeCalls (xslt_xslt_transform h p1 p2 p3 p4 p5 w).trace ≤ 1 := by
  rw [call_countingHost h p1 p2 p3 p4 p5 w n]
  have hlabel := nativeCalls_trace h p1 p2 p3 p4 p5 w
  refine ⟨?_, ?_, rfl, rfl, rfl, hlabel.1⟩
  · exact Nat.add_le_add_left hlabel.1 n
  · intro hall
    show n + nativeCalls (xslt_xslt_transform h p1 p2 p3 p4 p5 w).trace = n + 1
    rw [hlabel.2 hall]

/-- C7 at two concrete calls, the counter starting at 0: one in which the
native function throws, applied once, and one in which the second argument does
not convert, applied never. -/
theorem C7_native_invoked_at_most_once_witness :
    (xslt_xslt_transform (countingHost sampleHost) (RValue.character ["S"])
        (RValue.character [""]) (RValue.logical [true]) (RValue.logical [false])
        (RValue.logical [true]) (0, 0)).world.2 = 0 + 1 ∧
    (xslt_xslt_transform (countingHost sampleHost) (RValue.character ["S"]) RValue.null
        (RValue.logical [true]) (RValue.logical [false]) (RValue.logical [true])
        (0, 0)).world.2 ≤ 0 + 1 ∧
    (xslt_xslt_transform (countingHost sampleHost) (RValue.character ["S"]) RValue.null
        (RValue.logical [true]) (RValue.logical [false]) (RValue.logical [true])
        (0, 0)).world.2 = 0 :=
  ⟨(C7_native_invoked_at_most_once sampleHost (RValue.character ["S"]) (RValue.character [""])
      (RValue.logical [true]) (RValue.logical [false]) (RValue.logical [true]) 0 0).2.1
      ⟨"S", "", true, false, true, rfl, rfl, rfl, rfl, rfl⟩,
   (C7_native_invoked_at_most_once sampleHost (RValue.character ["S"]) RValue.null
      (RValue.logical [true]) (RValue.logical [false]) (RValue.logical [true]) 0 0).1,
   rfl⟩

/-- C8. Errors are surfaced: when the five arguments convert and the native
function throws an exception with message m, the binding ends in one host
error whose message is m; it returns no value, default or otherwise. -/
theorem C8_native_error_message_surfaced {SEXP World : Type} (h : Host SEXP World)
    (p1 p2 p3 p4 p5 : SEXP) (s x : String) (a b c : Bool) (w w1 : World) (m : String)
    (h1 : h.asString p1 = Except.ok s) (h2 : h.asString p2 = Except.ok x)
    (h3 : h.asBool p3 = Except.ok a) (h4 : h.asBool p4 = Except.ok b)
    (h5 : h.asBool p5 = Except.ok c)
    (hn : h.xslt_transform s x a b c (h.getRNGstate w) =
      (Except.error (CppException.stdException m), w1)) :
    (xslt_xslt_transform h p1 p2 p3 p4 p5 w).outcome = Outcome.hostError m ∧
    (xslt_xslt_transform h p1 p2 p3 p4 p5 w).trace.count Event.errorRaised = 1 := by
  rw [call_of_native_error h p1 p2 p3 p4 p5 s x a b c w w1 _ h1 h2 h3 h4 h5 hn]
  exact ⟨rfl, by simp⟩

/-- C8 at a concrete call: the message of the native failure reaches the host. -/
theorem C8_native_error_message_surfaced_witness :
    (xslt_xslt_transform sampleHost (RValue.character ["S"]) (RValue.character [""])
        (RValue.logical [true]) (RValue.logical [false]) (RValue.logical [true]) 0).outcome
      = Outcome.hostError "Document is empty" ∧
    (xslt_xslt_transform sampleHost (RValue.character ["S"]) (RValue.character [""])
        (RValue.logical [true]) (RValue.logical [false]) (RValue.logical [true]) 0).trace.count
      Event.errorRaised = 1 :=
  C8_native_error_message_surfaced sampleHost (RValue.character ["S"]) (RValue.character [""])
    (RValue.logical [true]) (RValue.logical [false]) (RValue.logical [true])
    "S" "" true false true 0 1 "Document is empty" rfl rfl rfl rfl rfl rfl

/-- C9. Argument conversion guards the call: when one of the five host
arguments does not convert, the binding ends in a host error and the native
function is never entered; and whenever the native function is entered, all
five conversions have succeeded before it, in the order of lines 14 to 18, and
it is entered with the converted values. -/
theorem C9_conversion_guards_call {SEXP World : Type} (h : Host SEXP World)
    (p1 p2 p3 p4 p5 : SEXP) (w : World) :
    (((∃ e, h.asString p1 = Except.error e) ∨ (∃ e, h.asString p2 = Except.error e) ∨
        (∃ e, h.asBool p3 = Except.error e) ∨ (∃ e, h.asBool p4 = Except.error e) ∨
        (∃ e, h.asBool p5 = Except.error e)) →
      (∃ m, (xslt_xslt_transform h p1 p2 p3 p4 p5 w).outcome = Outcome.hostError m) ∧
      nativeCalls (xslt_xslt_transform h p1 p2 p3 p4 p5 w).trace = 0) ∧
    (nativeCalls (xslt_xslt_transform h p1 p2 p3 p4 p5 w).trace ≠ 0 →
      ∃ s x a b c rest, h.asString p1 = Except.ok s ∧ h.asString p2 = Except.ok x ∧
        h.asBool p3 = Except.ok a ∧ h.asBool p4 = Except.ok b ∧ h.asBool p5 = Except.ok c ∧
        (xslt_xslt_transform h p1 p2 p3 p4 p5 w).trace =
          [Event.rngScopeOpen, Event.converted 1, Event.converted 2, Event.converted 3,
            Event.converted 4, Event.converted 5, Event.nativeCall s x a b c] ++ rest) := by
  have guard : ((∃ e, h.asString p1 = Except.error e) ∨ (∃ e, h.asString p2 = Except.error e) ∨
        (∃ e, h.asBool p3 = Except.error e) ∨ (∃ e, h.asBool p4 = Except.error e) ∨
        (∃ e, h.asBool p5 = Except.error e)) →
      (∃ m, (xslt_xslt_transform h p1 p2 p3 p4 p5 w).outcome = Outcome.hostError m) ∧
      nativeCalls (xslt_xslt_transform h p1 p2 p3 p4 p5 w).trace = 0 := by
    intro hfail
    obtain ⟨m, k, _, hcall⟩ := call_of_conversion_error h p1 p2 p3 p4 p5 w hfail
    rw [hcall]
    exact ⟨⟨m, rfl⟩, nativeCalls_conversions k [Event.rngScopeClose, Event.errorRaised] rfl⟩
  refine ⟨guard, ?_⟩
  intro hcalls
  rcases conversions_cases h p1 p2 p3 p4 p5 with hall | hfail
  · obtain ⟨s, x, a, b, c, h1, h2, h3, h4, h5⟩ := hall
    rcases hn : h.xslt_transform s x a b c (h.getRNGstate w) with ⟨r, w1⟩
    rcases r with e | r
    · exact ⟨s, x, a, b, c, [Event.rngScopeClose, Event.errorRaised], h1, h2, h3, h4, h5, by
        rw [call_of_native_error h p1 p2 p3 p4 p5 s x a b c w w1 e h1 h2 h3 h4 h5 hn]
        rfl⟩
    · exact ⟨s, x, a, b, c, [Event.resultAssigned, Event.returnResult, Event.rngScopeClose],
        h1, h2, h3, h4, h5, by
        rw [call_of_native_ok h p1 p2 p3 p4 p5 s x a b c w w1 r h1 h2 h3 h4 h5 hn]
        rfl⟩
  · exact absurd (guard hfail).2 hcalls

/-- C9 at a concrete call: the validate flag is a logical vector of length two. -/
theorem C9_conversion_guards_call_witness :
    (∃ m, (xslt_xslt_transform sampleHost (RValue.character ["S"]) (RValue.character ["D"])
        (RValue.logical [true]) (RValue.logical [false]) (RValue.logical [true, false])
        0).outcome = Outcome.hostError m) ∧
    nativeCalls (xslt_xslt_transform sampleHost (RValue.character ["S"]) (RValue.character ["D"])
        (RValue.logical [true]) (RValue.logical [false]) (RValue.logical [true, false])
        0).trace = 0 :=
  (C9_conversion_guards_call sampleHost (RValue.character ["S"]) (RValue.character ["D"])
    (RValue.logical [true]) (RValue.logical [false]) (RValue.logical [true, false]) 0).1
    (Or.inr (Or.inr (Or.inr (Or.inr ⟨_, rfl⟩))))

/-- The engine on the scenario: with a stack of three or more the result tree
is the element `out` holding the text `2`. -/
theorem transform_scenario (k : Nat) :
    transform (k + 3) scenarioSource scenarioStylesheet =
      Except.ok [Node.element "out" [] [Node.text "2"]] := by
  rfl

/-- Candidates of lower priority than the current choice leave it in place. -/
theorem selectFrom_keep (n : Node) (mode : Option String) (b : CompiledTemplate) :
    ∀ (l : List CompiledTemplate),
      (∀ t ∈ l, applicable t n mode = true → effectivePriority t < effectivePriority b) →
      selectFrom n mode l (some b) = some b := by
  intro l
  induction l with
  | nil => intro _; rfl
  | cons t rest ih =>
    intro hl
    have hrest := ih (fun u hu => hl u (List.mem_cons_of_mem t hu))
    by_cases ht : applicable t n mode = true
    · have hlt := hl t (List.mem_cons_self t rest) ht
      have hnot : ¬ effectivePriority b ≤ effectivePriority t := not_le.mpr hlt
      simp [selectFrom, ht, hnot, hrest]
    · simp [selectFrom, ht, hrest]

/-- A candidate whose priority is not exceeded by anything declared before it
is the choice when the scan has passed it. -/
theorem selectFrom_reach (n : Node) (mode : Option String) (t2 : CompiledTemplate)
    (rest : List CompiledTemplate) (h2 : applicable t2 n mode = true) :
    ∀ (l : List CompiledTemplate) (best : Option CompiledTemplate),
      (∀ t ∈ l, applicable t n mode = true → effectivePriority t ≤ effectivePriority t2) →
      (∀ b, best = some b → effectivePriority b ≤ effectivePriority t2) →
      selectFrom n mode (l ++ t2 :: rest) best = selectFrom n mode rest (some t2) := by
  intro l
  induction l with
  | nil =>
    intro best _ hbest
    cases best with
    | none => simp [selectFrom, h2]
    | some b => simp [selectFrom, h2, hbest b rfl]
  | cons t l ih =>
    intro best hl hbest
    have hl2 : ∀ u ∈ l, applicable u n mode = true →
        effectivePriority u ≤ effectivePriority t2 :=
      fun u hu => hl u (List.mem_cons_of_mem t hu)
    by_cases ht : applicable t n mode = true
    · have hle := hl t (List.mem_cons_self t l) ht
      cases best with
      | none =>
        simp only [List.cons_append, selectFrom, ht, if_true]
        exact ih (some t) hl2 (fun b hb => by cases hb; exact hle)
      | some b =>
        by_cases hbt : effectivePriority b ≤ effectivePriority t
        · simp only [List.cons_append, selectFrom, ht, if_true, hbt]
          exact ih (some t) hl2 (fun b hb => by cases hb; exact hle)
        · simp only [List.cons_append, selectFrom, ht, if_true, hbt, if_false]
          exact ih (some b) hl2 hbest
    · simp only [List.cons_append, selectFrom, ht]
      exact ih best hl2 hbest

/-- The scan of a list that follows another starts from the choice the scan
of the first one ends with. -/
theorem selectFrom_append (n : Node) (mode : Option String) (l2 : List CompiledTemplate) :
    ∀ (l1 : List CompiledTemplate) (best : Option CompiledTemplate),
      selectFrom n mode (l1 ++ l2) best = selectFrom n mode l2 (selectFrom n mode l1 best) := by
  intro l1
  induction l1 with
  | nil => intro best; rfl
  | cons t l ih =>
    intro best
    by_cases ht : applicable t n mode = true
    · cases best with
      | none => simp only [List.cons_append, selectFrom, ht, if_true]; exact ih _
      | some b =>
        by_cases hbt : effectivePriority b ≤ effectivePriority t
        · simp only [List.cons_append, selectFrom, ht, if_true, hbt]; exact ih _
        · simp only [List.cons_append, selectFrom, ht, if_true, hbt, if_false]; exact ih _
    · simp only [List.cons_append, selectFrom, ht]; exact ih _

/-- A choice t1 that meets a later candidate t2 of equal priority ends the scan
like any other choice of at most that priority, or like no choice at all. -/
theorem selectFrom_overridden (n : Node) (mode : Option String) (t1 t2 : CompiledTemplate)
    (after : List CompiledTemplate) (h2 : applicable t2 n mode = true)
    (htie : effectivePriority t1 = effectivePriority t2) :
    ∀ (between : List CompiledTemplate) (other : Option CompiledTemplate),
      (∀ c, other = some c → effectivePriority c ≤ effectivePriority t2) →
      selectFrom n mode (between ++ t2 :: after) (some t1) =
        selectFrom n mode (between ++ t2 :: after) other := by
  intro between
  induction between with
  | nil =>
    intro other hother
    cases other with
    | none => simp [selectFrom, h2, le_of_eq htie]
    | some c => simp [selectFrom, h2, le_of_eq htie, hother c rfl]
  | cons t l ih =>
    intro other hother
    by_cases ht : applicable t n mode = true
    · by_cases hge : effectivePriority t2 ≤ effectivePriority t
      · have h1t : effectivePriority t1 ≤ effectivePriority t := by rw [htie]; exact hge
        cases other with
        | none => simp only [List.cons_append, selectFrom, ht, if_true, h1t]
        | some c =>
          have hct : effectivePriority c ≤ effectivePriority t := le_trans (hother c rfl) hge
          simp only [List.cons_append, selectFrom, ht, if_true, h1t, hct]
      · have hlt : effectivePriority t < effectivePriority t2 := not_le.mp hge
        have h1t : ¬ effectivePriority t1 ≤ effectivePriority t := by
          rw [htie]; exact hge
        cases other with
        | none =>
          simp only [List.cons_append, selectFrom, ht, if_true, h1t, if_false]
          exact ih (some t) (fun c hc => by cases hc; exact le_of_lt hlt)
        | some c =>
          by_cases hct : effectivePriority c ≤ effectivePriority t
          · simp only [List.cons_append, selectFrom, ht, if_true, h1t, if_false, hct]
            exact ih (some t) (fun c hc => by cases hc; exact le_of_lt hlt)
          · simp only [List.cons_append, selectFrom, ht, if_true, h1t, if_false, hct]
            exact ih (some c) hother
    · simp only [List.cons_append, selectFrom, ht]
      exact ih other hother

/-- C5. Template priority tie-break: take any stylesheet that declares a
template t1 and later a template t2, both matching the node in the mode with
equal priority.  The earlier one never wins: the template selected for the
node is the one selected when t1 is struck from the stylesheet.  And when no
other matching template outranks the two (none declared before t2 has a higher
priority, none declared after it has a priority as high), the template
selected is t2, and applying templates to the node evaluates the body of t2. -/
theorem C5_last_declared_wins (ss : Stylesheet) (before between after : List CompiledTemplate)
    (t1 t2 : CompiledTemplate) (n : Node) (mode : Option String)
    (hdecl : ss.templates = before ++ t1 :: (between ++ t2 :: after))
    (h1 : applicable t1 n mode = true) (h2 : applicable t2 n mode = true)
    (htie : effectivePriority t1 = effectivePriority t2) :
    selectTemplate ss n mode =
      selectTemplate
        { templates := before ++ (between ++ t2 :: after), namedTemplates := ss.namedTemplates,
          globals := ss.globals, outputMethod := ss.outputMethod, encoding := ss.encoding }
        n mode ∧
    ((∀ t ∈ before ++ between, applicable t n mode = true →
        effectivePriority t ≤ effectivePriority t2) →
      (∀ t ∈ after, applicable t n mode = true →
        effectivePriority t < effectivePriority t2) →
      selectTemplate ss n mode = some t2 ∧
      ∀ (evaluate : TransformContext → List Instruction → Except EngineError (List Node))
        (ctx : TransformContext), ctx.current = n → ctx.mode = mode →
        applyTemplate evaluate ss ctx = evaluate ctx t2.body) := by
  constructor
  · unfold selectTemplate
    simp only [hdecl]
    rw [selectFrom_append n mode (t1 :: (between ++ t2 :: after)) before none,
      selectFrom_append n mode (between ++ t2 :: after) before none]
    cases hb : selectFrom n mode before none with
    | none =>
      simp only [selectFrom, h1, if_true]
      exact selectFrom_overridden n mode t1 t2 after h2 htie between none
        (fun c hc => by cases hc)
    | some c =>
      by_cases hc1 : effectivePriority c ≤ effectivePriority t1
      · simp only [selectFrom, h1, if_true, hc1]
        exact selectFrom_overridden n mode t1 t2 after h2 htie between (some c)
          (fun d hd => by cases hd; rw [← htie]; exact hc1)
      · simp only [selectFrom, h1, if_true, hc1, if_false]
  · intro hearlier hlater
    have hsel : selectTemplate ss n mode = some t2 := by
      unfold selectTemplate
      rw [hdecl, show before ++ t1 :: (between ++ t2 :: after) =
        (before ++ t1 :: between) ++ t2 :: after by simp]
      rw [selectFrom_reach n mode t2 after h2 (before ++ t1 :: between) none ?_ ?_]
      · exact selectFrom_keep n mode t2 after hlater
      · intro t ht happ
        rcases List.mem_append.mp ht with hb | hb
        · exact hearlier t (List.mem_append_left _ hb) happ
        · rcases List.mem_cons.mp hb with rfl | hb
          · exact le_of_eq htie
          · exact hearlier t (List.mem_append_right _ hb) happ
      · intro b hb
        cases hb
    refine ⟨hsel, ?_⟩
    intro evaluate ctx hcur hmode
    simp [applyTemplate, templateBodyFor, hcur, hmode, hsel]

/-- C5 on the stylesheet with two templates for `item` of equal priority: the
second is selected for an `item` element, its body is what applying templates
evaluates, and the transformation of such an element is the text of the
second. -/
theorem C5_last_declared_wins_witness :
    (selectTemplate tieBreakStylesheet (Node.element "item" [] []) none = some tieBreakSecond ∧
      ∀ (evaluate : TransformContext → List Instruction → Except EngineError (List Node))
        (ctx : TransformContext), ctx.current = Node.element "item" [] [] → ctx.mode = none →
        applyTemplate evaluate tieBreakStylesheet ctx = evaluate ctx tieBreakSecond.body) ∧
    transform 2 (Node.element "item" [] []) tieBreakStylesheet =
      Except.ok [Node.text "second"] :=
  ⟨(C5_last_declared_wins tieBreakStylesheet [] [] [tieBreakAny] tieBreakFirst tieBreakSecond
      (Node.element "item" [] []) none rfl rfl rfl rfl).2
      (by intro t ht; cases ht)
      (by
        intro t ht _
        rcases List.mem_singleton.mp ht with rfl
        decide),
   rfl⟩

mutual
/-- Resolving the directives of a tree that contains none gives the tree back. -/
theorem resolveIncludes_of_no_directive (ref : Node → Option String)
    (fetch : String → Except EngineError (List Node)) :
    ∀ (t : Node), containsInclude ref t = false → resolveIncludes ref fetch t = Except.ok [t]
  | Node.document cs, h => by
    have hcs : containsIncludeList ref cs = false := by simpa [containsInclude] using h
    simp [resolveIncludes, resolveIncludesList_of_no_directive ref fetch cs hcs, Bind.bind,
      Except.bind, pure, Except.pure]
  | Node.element name attrs cs, h => by
    have hboth : (ref (Node.element name attrs cs)).isSome = false ∧
        containsIncludeList ref cs = false := by
      simpa [containsInclude, Bool.or_eq_false_iff] using h
    have href : ref (Node.element name attrs cs) = none := by
      cases hr : ref (Node.element name attrs cs) with
      | none => rfl
      | some v => rw [hr] at hboth; exact absurd hboth.1 (by simp)
    simp [resolveIncludes, href, resolveIncludesList_of_no_directive ref fetch cs hboth.2,
      Bind.bind, Except.bind, pure, Except.pure]
  | Node.text _, _ => by simp [resolveIncludes]
  | Node.comment _, _ => by simp [resolveIncludes]
  | Node.processingInstruction _ _, _ => by simp [resolveIncludes]
  | Node.attribute _ _, _ => by simp [resolveIncludes]
/-- Resolving the directives of children that contain none gives them back. -/
theorem resolveIncludesList_of_no_directive (ref : Node → Option String)
    (fetch : String → Except EngineError (List Node)) :
    ∀ (cs : List Node), containsIncludeList ref cs = false →
      resolveIncludesList ref fetch cs = Except.ok cs
  | [], _ => by simp [resolveIncludesList]
  | n :: rest, h => by
    have hboth : containsInclude ref n = false ∧ containsIncludeList ref rest = false := by
      simpa [containsIncludeList, Bool.or_eq_false_iff] using h
    simp [resolveIncludesList, resolveIncludes_of_no_directive ref fetch n hboth.1,
      resolveIncludesList_of_no_directive ref fetch rest hboth.2, Bind.bind, Except.bind,
      pure, Except.pure]
end

/-- The include stage does nothing to a tree without directives, whatever the flag. -/
theorem processIncludes_of_no_directive {Dtd : Type} (c : Collaborators Dtd) (flag : Bool)
    (tree : Node) (h : containsInclude c.includeReference tree = false) :
    processIncludes c flag tree = Except.ok tree := by
  cases flag with
  | false => rfl
  | true =>
    simp [processIncludes, resolveIncludes_of_no_directive c.includeReference c.fetchInclude
      tree h, Bind.bind, Except.bind, pure, Except.pure]

/-- The external subset stage loads nothing for a doctype that refers to no
external subset, whatever the flag. -/
theorem loadExternalSubset_of_no_reference {Dtd : Type} (c : Collaborators Dtd) (flag : Bool)
    (doc : SourceDocument Dtd) (h : doc.externalSubset = none) :
    loadExternalSubset c flag doc = Except.ok (none, doc.tree) := by
  cases flag with
  | false => rfl
  | true => simp [loadExternalSubset, h]

/-- The parser gives the same result under all values of the two flags for a
text that holds neither directive nor external subset reference. -/
theorem parse_flags_irrelevant {Dtd : Type} (c : Collaborators Dtd) (x : String)
    (a b a1 b1 v : Bool)
    (hdoc : ∀ doc, c.readDocument x = Except.ok doc →
      containsInclude c.includeReference doc.tree = false ∧ doc.externalSubset = none) :
    parse c x { processIncludes := a, loadExternalSubsets := b, validate := v } =
      parse c x { processIncludes := a1, loadExternalSubsets := b1, validate := v } := by
  unfold parse
  rcases hread : c.readDocument x with e | doc
  · rfl
  · obtain ⟨hinc, hext⟩ := hdoc doc hread
    simp [Bind.bind, Except.bind, loadExternalSubset_of_no_reference c _ doc hext,
      processIncludes_of_no_directive c _ doc.tree hinc]

/-- C6. Flag independence: for a source text whose reading holds no XInclude
directive and no reference to an external subset, every stylesheet text and
every value of validate_xml, two calls of the binding that differ only in the
values of process_includes and load_external_subsets end in the same outcome;
so do the two calls of the transform underneath. -/
theorem C6_flag_independence {SEXP World Dtd : Type} (base : Host SEXP World)
    (c : Collaborators Dtd) (depth : Nat)
    (p1 p2 p3 p4 q3 q4 p5 : SEXP) (s x : String) (a b a1 b1 v : Bool) (w : World)
    (h1 : base.asString p1 = Except.ok s) (h2 : base.asString p2 = Except.ok x)
    (h3 : base.asBool p3 = Except.ok a) (h4 : base.asBool p4 = Except.ok b)
    (k3 : base.asBool q3 = Except.ok a1) (k4 : base.asBool q4 = Except.ok b1)
    (h5 : base.asBool p5 = Except.ok v)
    (hdoc : ∀ doc, c.readDocument x = Except.ok doc →
      containsInclude c.includeReference doc.tree = false ∧ doc.externalSubset = none) :
    (xslt_xslt_transform (engineHost base c depth) p1 p2 p3 p4 p5 w).outcome =
      (xslt_xslt_transform (engineHost base c depth) p1 p2 q3 q4 p5 w).outcome ∧
    xslt_transform c depth s x a b v = xslt_transform c depth s x a1 b1 v := by
  have hnative : xslt_transform c depth s x a b v = xslt_transform c depth s x a1 b1 v := by
    unfold xslt_transform
    rw [parse_flags_irrelevant c x a b a1 b1 v hdoc]
  refine ⟨?_, hnative⟩
  rcases hr : xslt_transform c depth s x a1 b1 v with e | r
  · rw [call_of_native_error (engineHost base c depth) p1 p2 p3 p4 p5 s x a b v w
        (base.getRNGstate w) (CppException.stdException e.message) h1 h2 h3 h4 h5
        (by simp [engineHost, hnative, hr]),
      call_of_native_error (engineHost base c depth) p1 p2 q3 q4 p5 s x a1 b1 v w
        (base.getRNGstate w) (CppException.stdException e.message) h1 h2 k3 k4 h5
        (by simp [engineHost, hr])]
  · rw [call_of_native_ok (engineHost base c depth) p1 p2 p3 p4 p5 s x a b v w
        (base.getRNGstate w) r h1 h2 h3 h4 h5 (by simp [engineHost, hnative, hr]),
      call_of_native_ok (engineHost base c depth) p1 p2 q3 q4 p5 s x a1 b1 v w
        (base.getRNGstate w) r h1 h2 k3 k4 h5 (by simp [engineHost, hr])]

set_option maxRecDepth 100000 in
/-- C6 at concrete calls on the texts of the scenario, with nothing to fetch:
both flags set against both flags unset. -/
theorem C6_flag_independence_witness :
    (xslt_xslt_transform (engineHost sampleHost (textCollaborators noResources) 3)
        (RValue.character [scenarioStylesheetText]) (RValue.character [scenarioSourceText])
        (RValue.logical [true]) (RValue.logical [true]) (RValue.logical [false]) 0).outcome =
      (xslt_xslt_transform (engineHost sampleHost (textCollaborators noResources) 3)
        (RValue.character [scenarioStylesheetText]) (RValue.character [scenarioSourceText])
        (RValue.logical [false]) (RValue.logical [false]) (RValue.logical [false]) 0).outcome ∧
    xslt_transform (textCollaborators noResources) 3 scenarioStylesheetText scenarioSourceText
        true true false =
      xslt_transform (textCollaborators noResources) 3 scenarioStylesheetText scenarioSourceText
        false false false :=
  C6_flag_independence sampleHost (textCollaborators noResources) 3
    (RValue.character [scenarioStylesheetText]) (RValue.character [scenarioSourceText])
    (RValue.logical [true]) (RValue.logical [true]) (RValue.logical [false])
    (RValue.logical [false]) (RValue.logical [false])
    scenarioStylesheetText scenarioSourceText true true false false false 0
    rfl rfl rfl rfl rfl rfl rfl
    (by
      intro doc hread
      have hknown : (textCollaborators noResources).readDocument scenarioSourceText =
          Except.ok ⟨scenarioSource, none, none⟩ := rfl
      rw [hknown] at hread
      have hdoc : doc = ⟨scenarioSource, none, none⟩ := (Except.ok.inj hread).symm
      subst hdoc
      exact ⟨rfl, rfl⟩)

set_option maxRecDepth 100000 in
/-- The reader on the source text of the scenario: the tree of the scenario,
and no doctype. -/
theorem readXml_scenario {Dtd : Type} (parseSubset : String → Except EngineError Dtd) :
    readXml parseSubset scenarioSourceText = Except.ok ⟨scenarioSource, none, none⟩ := by
  rfl

set_option maxRecDepth 100000 in
/-- The compiler on the stylesheet text of the scenario: the stylesheet with
the one template for the root. -/
theorem compileStylesheet_scenario :
    compileStylesheet scenarioStylesheetText = Except.ok scenarioStylesheet := by
  rfl

/-- The parser on the source text of the scenario, under any flags, as long as
a requested validation accepts a document without DTD. -/
theorem parse_scenario {Dtd : Type} (r : Resources Dtd) (a b v : Bool)
    (hvalid : v = true → r.conforms none none scenarioSource = true) :
    parse (textCollaborators r) scenarioSourceText
      { processIncludes := a, loadExternalSubsets := b, validate := v } =
        Except.ok scenarioSource := by
  have hread : (textCollaborators r).readDocument scenarioSourceText =
      Except.ok ⟨scenarioSource, none, none⟩ := readXml_scenario r.parseSubset
  have hinc : containsInclude (textCollaborators r).includeReference scenarioSource = false := by
    rfl
  unfold parse
  rw [hread]
  simp only [Bind.bind, Except.bind]
  rw [loadExternalSubset_of_no_reference (textCollaborators r) b ⟨scenarioSource, none, none⟩ rfl]
  simp only
  rw [processIncludes_of_no_directive (textCollaborators r) a scenarioSource hinc]
  cases v with
  | false => rfl
  | true =>
    have hc : (textCollaborators r).conforms none none scenarioSource = true := hvalid rfl
    simp [hc, pure, Except.pure]

/-- C4. Scenario: the transform of the specification, with the reader, the
compiler and the serializer on text, called with the stylesheet text whose only
template is
`<xsl:template match="/"><out><xsl:value-of select="count(//item)"/></out></xsl:template>`
and with the source text `<root><item/><item/></root>`, returns the text
`<out>2</out>`: under all values of process_includes and
load_external_subsets, with validate_xml unset or with a validation that
accepts a document without DTD, and with any stack of at least three. -/
theorem C4_scenario_count_items {Dtd : Type} (r : Resources Dtd) (a b v : Bool) (depth : Nat)
    (hdepth : 3 ≤ depth)
    (hvalid : v = true → r.conforms none none scenarioSource = true) :
    xslt_transform (textCollaborators r) depth
      ("<xsl:stylesheet version=\"1.0\" xmlns:xsl=\"http://www.w3.org/1999/XSL/Transform\">"
        ++ "<xsl:template match=\"/\"><out><xsl:value-of select=\"count(//item)\"/></out></xsl:template>"
        ++ "</xsl:stylesheet>")
      "<root><item/><item/></root>" a b v = Except.ok "<out>2</out>" := by
  obtain ⟨k, rfl⟩ : ∃ k, depth = k + 3 := ⟨depth - 3, by omega⟩
  have hparse := parse_scenario r a b v hvalid
  have hcompile : (textCollaborators r).compile scenarioStylesheetText =
      Except.ok scenarioStylesheet := compileStylesheet_scenario
  have hserialize : (textCollaborators r).serialize [Node.element "out" [] [Node.text "2"]]
      OutputMethod.xml "UTF-8" = Except.ok "<out>2</out>" := by rfl
  show xslt_transform (textCollaborators r) (k + 3) scenarioStylesheetText scenarioSourceText
    a b v = _
  unfold xslt_transform
  rw [hparse, hcompile]
  show (do
    let result ← transform (k + 3) scenarioSource scenarioStylesheet
    (textCollaborators r).serialize result scenarioStylesheet.outputMethod
      scenarioStylesheet.encoding) = _
  rw [transform_scenario k]
  exact hserialize

set_option maxRecDepth 100000 in
/-- C4 with nothing to fetch, all three flags set and a stack of three; and
the same call with a stylesheet text that is not XML, which fails. -/
theorem C4_scenario_count_items_witness :
    xslt_transform (textCollaborators noResources) 3
      ("<xsl:stylesheet version=\"1.0\" xmlns:xsl=\"http://www.w3.org/1999/XSL/Transform\">"
        ++ "<xsl:template match=\"/\"><out><xsl:value-of select=\"count(//item)\"/></out></xsl:template>"
        ++ "</xsl:stylesheet>")
      "<root><item/><item/></root>" true true true = Except.ok "<out>2</out>" ∧
    xslt_transform (textCollaborators noResources) 3 "this is not even XML"
      "<root><item/><item/></root>" true true true =
        Except.error (EngineError.parseError "text outside the root element") :=
  ⟨C4_scenario_count_items noResources true true true 3 (by decide) (fun _ => rfl), rfl⟩

end Xslt
